import Mathlib

/-!
# apps/align.cpp : the registration benchmark

A shallow embedding of `apps/align.cpp`: the driver `align`, the orchestrator
`main` and the diagnostics routine `PrintMemoryUsage`.

The registration algorithms, the PCD reader and writer, the voxel grid, the
clock and the viewer are library code.  They enter the embedding as the fields
of `Library`, arbitrary functions over an abstract world `W`; every call of one
of them is appended to a log, and so is every entry into the driver.  These
calls are modelled as calls that return: the source has no `throw`, `try` or
`catch`.  The one exception is `std::stoul`, whose two exceptions are results
of the model, because `PrintMemoryUsage` feeds it text it has not checked.
The status file is text: `PrintMemoryUsage` is modelled on any list of lines.

Cloud objects live in a heap of cells addressed by index, so that the pointer
assignments of `main` (`*target_cloud = *downsampled` against
`source_cloud = downsampled`) keep their meaning.
-/

namespace Align

/-! ## Data model -/

/-- A `pcl::PointCloud`: an ordered sequence of points of type `P`. -/
abbrev PointCloud (P : Type) := List P

/-- The enumeration `pclomp::NeighborSearchMethod`. -/
inductive NeighborSearchMethod
  | KDTREE
  | DIRECT7
  | DIRECT1
deriving DecidableEq, Repr

/-- The four registration classes instantiated by `main`. -/
inductive RegistrationClass
  | pcl_gicp
  | pclomp_gicp
  | pcl_ndt
  | pclomp_ndt
deriving DecidableEq, Repr

/-- Modelled from the spec: the registration handle, whose classes are declared
in library headers that are not part of `apps/align.cpp`.  It is the stateful
handle of the design notes: the class of the object and its configuration map
`resolution`, `thread_count`, `neighbor_search_strategy`; `none` is an option
the program never set.  The engine behind the handle (bound clouds, search
structures, last transformation) is part of the world `W`. -/
structure Registration where
  cls : RegistrationClass
  resolution : Option ℚ
  num_threads : Option Int
  search_method : Option NeighborSearchMethod
deriving DecidableEq

/-- A freshly constructed registration object: `new T()`. -/
def Registration.new (cls : RegistrationClass) : Registration :=
  ⟨cls, none, none, none⟩

/-- Setter `setResolution`. -/
def Registration.setResolution (r : Registration) (x : ℚ) : Registration :=
  { r with resolution := some x }

/-- Setter `setNumThreads`. -/
def Registration.setNumThreads (r : Registration) (n : Int) : Registration :=
  { r with num_threads := some n }

/-- Setter `setNeighborhoodSearchMethod`. -/
def Registration.setNeighborhoodSearchMethod (r : Registration)
    (m : NeighborSearchMethod) : Registration :=
  { r with search_method := some m }

/-- One operand of a `<<` chain.  `msec a b` is `(b - a).toSec() * 1000`. -/
inductive Tok (T S : Type)
  | str (s : String)
  | int (n : Int)
  | msec (start stop : T)
  | score (f : S)
  | endl

/-- One entry of the log: a library call with its arguments and result, an
output statement, or an entry into the driver `align`. -/
inductive Event (P T S : Type)
  | call_align (registration : Registration) (registration_name : String)
      (target source : PointCloud P)
  | setInputTarget (registration : Registration) (cloud : PointCloud P)
  | setInputSource (registration : Registration) (cloud : PointCloud P)
  | align (registration : Registration) (output : PointCloud P)
  | getFitnessScore (registration : Registration) (score : S)
  | now (t : T)
  | cout (toks : List (Tok T S))
  | cerr (toks : List (Tok T S))
  | loadPCDFile (path : String) (ret : Int)
  | savePCDFileASCII (path : String) (cloud : PointCloud P) (ret : Int)
  | filter (leaf : ℚ × ℚ × ℚ) (input output : PointCloud P)
  | time_init
  | visualizer (name : String)
  | addPointCloud (cloud : PointCloud P) (rgb : Nat × Nat × Nat) (id : String)
  | spin

/-- The library calls of the program, over an abstract world `W` (file system,
clock, registration engines, viewer).  `T` is the type of time stamps, `S` of
fitness scores.  A PCD call returns its integer status, zero on success. -/
structure Library (P W T S : Type) where
  loadPCDFile : String → W → (Int × PointCloud P) × W
  savePCDFileASCII : String → PointCloud P → W → Int × W
  filter : ℚ × ℚ × ℚ → PointCloud P → PointCloud P
  now : W → T × W
  setInputTarget : Registration → PointCloud P → W → W
  setInputSource : Registration → PointCloud P → W → W
  align : Registration → PointCloud P → W → PointCloud P × W
  getFitnessScore : Registration → W → S × W
  omp_get_max_threads : Int
  time_init : W → W
  spin : W → W

/-- The state of the process: the world, the heap of cloud objects and the log
of events, oldest first. -/
structure Sys (P W T S : Type) where
  world : W
  heap : List (PointCloud P)
  log : List (Event P T S)

variable {P W T S : Type}

/-- Append one event to the log. -/
def emit (e : Event P T S) (st : Sys P W T S) : Sys P W T S :=
  { st with log := st.log ++ [e] }

/-- The contents of the cloud object at address `p`: `*p`. -/
def deref (st : Sys P W T S) (p : Nat) : PointCloud P :=
  st.heap.getD p []

/-- Overwrite the cloud object at address `p`: `*p = c`. -/
def store (p : Nat) (c : PointCloud P) (st : Sys P W T S) : Sys P W T S :=
  { st with heap := st.heap.set p c }

/-- Allocate an empty cloud: `new pcl::PointCloud<pcl::PointXYZ>()`. -/
def new_cloud (st : Sys P W T S) : Nat × Sys P W T S :=
  (st.heap.length, { st with heap := st.heap ++ [[]] })

/-- Replace the world of a state. -/
def setWorld (w : W) (st : Sys P W T S) : Sys P W T S :=
  { st with world := w }

/-! ## The diagnostics routine `PrintMemoryUsage` -/

/-- The C function `isspace` in the "C" locale, which `std::stoul` uses to
skip leading blanks. -/
def isspace (c : Char) : Bool :=
  c = ' ' || (9 ≤ c.toNat && c.toNat ≤ 13)

/-- The search of `std::string::find(pat)` over the characters that are left,
the first of them at position `i`. -/
def find_at (pat : List Char) : List Char → Nat → Option Nat
  | [], i => if pat = [] then some i else none
  | c :: cs, i => if pat.isPrefixOf (c :: cs) then some i else find_at pat cs (i + 1)

/-- The call `s.find(pat)`: the position of the first occurrence of `pat`, or
`none` for `npos`. -/
def find (s pat : String) : Option Nat := find_at pat.data s.data 0

/-- The call `s.substr(pos)`. -/
def substr_from (s : String) (pos : Nat) : String := ⟨s.data.drop pos⟩

/-- The call `s.substr(0, n)`. -/
def substr_to (s : String) (n : Nat) : String := ⟨s.data.take n⟩

/-- The two exceptions of `std::stoul`. -/
inductive StoulError
  | invalid_argument
  | out_of_range
deriving DecidableEq, Repr

/-- The largest `unsigned long`, 64 bits wide as on the Linux targets that
have `/proc/self/status`. -/
def ULONG_MAX : Nat := 2 ^ 64 - 1

/-- The number written by a run of decimal digits. -/
def decimal_value (ds : List Char) : Nat :=
  ds.foldl (fun a c => 10 * a + (c.toNat - '0'.toNat)) 0

/-- The call `std::stoul(s)` (base 10): skip blanks, take an optional sign and
the longest run of digits; no digit raises `invalid_argument`, a value above
`ULONG_MAX` raises `out_of_range`, a minus sign negates modulo `2 ^ 64`. -/
def stoul (s : String) : Except StoulError Nat :=
  let cs := s.data.dropWhile isspace
  let signed : Bool × List Char :=
    match cs with
    | '-' :: r => (true, r)
    | '+' :: r => (false, r)
    | _ => (false, cs)
  let ds := signed.2.takeWhile Char.isDigit
  if ds = [] then .error .invalid_argument
  else if ULONG_MAX < decimal_value ds then .error .out_of_range
  else .ok (if signed.1 then (2 ^ 64 - decimal_value ds) % 2 ^ 64 else decimal_value ds)

/-- The number of low bits that a 53-bit significand cannot hold: the least
`e` with `n / 2 ^ e < 2 ^ 53`, searched with `fuel` halvings. -/
def excess_bits : Nat → Nat → Nat
  | 0, _ => 0
  | fuel + 1, n => if n < 2 ^ 53 then 0 else excess_bits fuel (n / 2) + 1

/-- The conversion of a `std::size_t` (below `2 ^ 64`) to `double` in
`size / 1024.0`: IEEE 754 binary64, 53-bit significand, round to nearest, ties
to even.  The result is an integer, given as a natural number. -/
def to_double (n : Nat) : Nat :=
  let e := excess_bits 64 n
  let q := n / 2 ^ e
  let r := n % 2 ^ e
  let up : Bool := decide (2 ^ e < 2 * r) || (decide (2 * r = 2 ^ e) && decide (q % 2 = 1))
  (if up then q + 1 else q) * 2 ^ e

/-- One operand of a `<<` chain of `PrintMemoryUsage`: a string, a string or a
number under `std::left << std::setw(width)`, the number also under
`std::fixed << std::setprecision(precision)`, or `std::endl`.  A `double` is
given by the rational number it is. -/
inductive Item
  | str (s : String)
  | field (width : Nat) (s : String)
  | fixed (width precision : Nat) (x : ℚ)
  | endl
deriving DecidableEq

/-- What one call of `PrintMemoryUsage` leaves behind: the output statements
executed, oldest first, and the exception that ended the call, if any. -/
structure Report where
  out : List (List Item)
  raised : Option StoulError
deriving DecidableEq

/-- The loop `while(std::getline(status_file, line))` (lines 38-50) over the
lines that are left.  On line 45 `size` is converted to `double` (`to_double`)
and divided by `1024.0`; the division by a power of two is exact. -/
def print_rows : List String → Report
  | [] => ⟨[], none⟩
  | line :: rest =>
    if (find line "VmPeak").isSome || (find line "VmSize").isSome ||
        (find line "VmStk").isSome || (find line "VmData").isSome ||
        (find line "VmRSS").isSome || (find line "VmLib").isSome ||
        (find line "VmPTE").isSome then
      match find line ":" with
      | some pos =>
        let type := substr_to line pos
        let size_str := substr_from line (pos + 1)
        match stoul size_str with
        | .ok size =>
          let size_MB : ℚ := (to_double size : ℚ) / 1024
          let r := print_rows rest
          ⟨[.field 15 type, .fixed 15 2 size_MB, .endl] :: r.out, r.raised⟩
        | .error e => ⟨[], some e⟩
      | none => print_rows rest
    else print_rows rest

/-- The function `PrintMemoryUsage` (lines 26-53).  `status_file` is the
content of `/proc/self/status` as `std::getline` delivers it, `none` when the
file cannot be opened. -/
def PrintMemoryUsage (status_file : Option (List String)) : Report :=
  match status_file with
  | none => ⟨[[.str "Failed to open /proc/self/status"]], none⟩
  | some lines =>
    let r := print_rows lines
    ⟨[.str (String.mk (List.replicate 30 '=')), .endl] ::
      [.field 15 "Memory Type", .field 15 "Size (MB)", .endl] ::
      [.str (String.mk (List.replicate 30 '-')), .endl] :: r.out, r.raised⟩

/-! ## The driver `align` -/

/-- The call `ros::WallTime::now()`. -/
def wall_now (env : Library P W T S) (st : Sys P W T S) : T × Sys P W T S :=
  let r := env.now st.world
  (r.1, emit (.now r.1) (setWorld r.2 st))

/-- The call `registration->align(*aligned)`: one alignment pass, writing its
output into the cloud object `aligned`. -/
def align_pass (env : Library P W T S) (registration : Registration) (aligned : Nat)
    (st : Sys P W T S) : Sys P W T S :=
  let r := env.align registration (deref st aligned) st.world
  emit (.align registration r.1) (store aligned r.1 (setWorld r.2 st))

/-- The loop `for(int i = 0; i < 10; i++) registration->align(*aligned);`,
with `n` iterations left. -/
def align_loop (env : Library P W T S) (registration : Registration) (aligned : Nat) :
    Nat → Sys P W T S → Sys P W T S
  | 0, st => st
  | n + 1, st => align_loop env registration aligned n (align_pass env registration aligned st)

/-- The call `pcl::io::savePCDFileASCII(path, *cloud)` with the `if` around
it: a nonzero status is reported on `std::cerr`. -/
def save_or_report (env : Library P W T S) (path : String) (cloud : PointCloud P)
    (st : Sys P W T S) : Sys P W T S :=
  let r := env.savePCDFileASCII path cloud st.world
  let st := emit (.savePCDFileASCII path cloud r.1) (setWorld r.2 st)
  if r.1 ≠ 0 then emit (.cerr [.str "failed to save ", .str path, .endl]) st else st

/-- The driver `align` (lines 56-87): bind the clouds, one timed pass, ten
more passes timed together, the fitness score, the three saves.  Returns the
address of the cloud `aligned`. -/
def align (env : Library P W T S) (registration : Registration) (registration_name : String)
    (target_cloud source_cloud : Nat) (st : Sys P W T S) : Nat × Sys P W T S :=
  let st := emit (.call_align registration registration_name
    (deref st target_cloud) (deref st source_cloud)) st
  let st := emit (.setInputTarget registration (deref st target_cloud))
    (setWorld (env.setInputTarget registration (deref st target_cloud) st.world) st)
  let st := emit (.setInputSource registration (deref st source_cloud))
    (setWorld (env.setInputSource registration (deref st source_cloud) st.world) st)
  let a := new_cloud st
  let aligned := a.1
  let st := a.2
  let n1 := wall_now env st
  let t1 := n1.1
  let st := align_pass env registration aligned n1.2
  let n2 := wall_now env st
  let t2 := n2.1
  let st := emit (.cout [.str "single: ", .msec t1 t2, .str " [msec]", .endl]) n2.2
  let st := align_loop env registration aligned 10 st
  let n3 := wall_now env st
  let t3 := n3.1
  let st := emit (.cout [.str "10 times: ", .msec t2 t3, .str " [msec]", .endl]) n3.2
  let f := env.getFitnessScore registration st.world
  let st := emit (.getFitnessScore registration f.1) (setWorld f.2 st)
  let st := emit (.cout [.str "fitness: ", .score f.1, .endl, .endl]) st
  let st := save_or_report env ("/home/pcd/" ++ registration_name ++ "_source.pcd")
    (deref st source_cloud) st
  let st := save_or_report env ("/home/pcd/" ++ registration_name ++ "_target.pcd")
    (deref st target_cloud) st
  let st := save_or_report env ("/home/pcd/" ++ registration_name ++ "_aligned.pcd")
    (deref st aligned) st
  (aligned, st)

/-! ## The orchestrator `main` -/

/-- The C++ `std::to_string` on an `int`. -/
def to_string (n : Int) : String := toString n

/-- The call `pcl::io::loadPCDFile(path, *cloud)`: the cloud read is written
into the object at `cloud`; returns the status. -/
def load_into (env : Library P W T S) (path : String) (cloud : Nat) (st : Sys P W T S) :
    Int × Sys P W T S :=
  let r := env.loadPCDFile path st.world
  (r.1.1, emit (.loadPCDFile path r.1.1) (store cloud r.1.2 (setWorld r.2 st)))

/-- The calls `voxelgrid.setInputCloud(input); voxelgrid.filter(*output);`. -/
def voxel_filter (env : Library P W T S) (leaf : ℚ × ℚ × ℚ) (input output : Nat)
    (st : Sys P W T S) : Sys P W T S :=
  let c := env.filter leaf (deref st input)
  emit (.filter leaf (deref st input) c) (store output c st)

/-- The variables carried around the sweep loop: the handle `ndt_omp`, the
pointer `aligned` and the process state. -/
structure Loop (P W T S : Type) where
  ndt_omp : Registration
  aligned : Nat
  st : Sys P W T S

/-- The body of the inner loop (lines 148-151) for thread count `n` and one
entry of `search_methods`. -/
def sweep_body (env : Library P W T S) (target_cloud source_cloud : Nat) (n : Int)
    (l : Loop P W T S) (search_method : String × NeighborSearchMethod) : Loop P W T S :=
  let st := emit (.cout [.str "--- pclomp::NDT (", .str search_method.1, .str ", ", .int n,
    .str " threads) ---", .endl]) l.st
  let ndt_omp := l.ndt_omp.setNumThreads n
  let ndt_omp := ndt_omp.setNeighborhoodSearchMethod search_method.2
  let r := align env ndt_omp
    ("pclomp_ndt_" ++ search_method.1 ++ "_" ++ to_string n ++ "_threads")
    target_cloud source_cloud st
  ⟨ndt_omp, r.1, r.2⟩

/-- The nested loops of lines 146-153. -/
def sweep (env : Library P W T S) (target_cloud source_cloud : Nat) (num_threads : List Int)
    (search_methods : List (String × NeighborSearchMethod)) (l : Loop P W T S) : Loop P W T S :=
  num_threads.foldl
    (fun l n => search_methods.foldl (sweep_body env target_cloud source_cloud n) l) l

/-- The state of a process at the entry of `main`: no cloud object, empty log. -/
def Sys.init (w : W) : Sys P W T S := ⟨w, [], []⟩

/-- The function `main` (lines 89-166) on the argument vector `argv`
(`argc = argv.length`), from the world `w`.  Returns the exit status and the
final state. -/
def main (env : Library P W T S) (argv : List String) (w : W) : Int × Sys P W T S :=
  let st : Sys P W T S := Sys.init w
  if argv.length ≠ 3 then
    (0, emit (.cout [.str "usage: align target.pcd source.pcd", .endl]) st)
  else
    let target_pcd := argv.getD 1 ""
    let source_pcd := argv.getD 2 ""
    let a := new_cloud st
    let target_cloud := a.1
    let b := new_cloud a.2
    let source_cloud := b.1
    let lt := load_into env target_pcd target_cloud b.2
    if lt.1 ≠ 0 then
      (0, emit (.cerr [.str "failed to load ", .str target_pcd, .endl]) lt.2)
    else
    let ls := load_into env source_pcd source_cloud lt.2
    if ls.1 ≠ 0 then
      (0, emit (.cerr [.str "failed to load ", .str source_pcd, .endl]) ls.2)
    else
    -- downsampling
    let d := new_cloud ls.2
    let downsampled := d.1
    let leaf : ℚ × ℚ × ℚ := (1 / 10, 1 / 10, 1 / 10)
    let st := voxel_filter env leaf target_cloud downsampled d.2
    let st := store target_cloud (deref st downsampled) st
    let st := voxel_filter env leaf source_cloud downsampled st
    let source_cloud := downsampled
    let st := emit .time_init (setWorld (env.time_init st.world) st)
    -- benchmark
    let st := emit (.cout [.str "--- pcl::GICP ---", .endl]) st
    let gicp := Registration.new .pcl_gicp
    let r := align env gicp "pcl_gicp" target_cloud source_cloud st
    let st := emit (.cout [.str "--- pclomp::GICP ---", .endl]) r.2
    let gicp_omp := Registration.new .pclomp_gicp
    let r := align env gicp_omp "pclomp_gicp" target_cloud source_cloud st
    let st := emit (.cout [.str "--- pcl::NDT ---", .endl]) r.2
    let ndt := (Registration.new .pcl_ndt).setResolution 1
    let r := align env ndt "pcl_ndt" target_cloud source_cloud st
    let num_threads : List Int := [1, env.omp_get_max_threads]
    let search_methods : List (String × NeighborSearchMethod) :=
      [("KDTREE", .KDTREE), ("DIRECT7", .DIRECT7), ("DIRECT1", .DIRECT1)]
    let ndt_omp := (Registration.new .pclomp_ndt).setResolution 1
    let l := sweep env target_cloud source_cloud num_threads search_methods ⟨ndt_omp, r.1, r.2⟩
    let aligned := l.aligned
    -- visualization
    let st := emit (.visualizer "vis") l.st
    let st := emit (.addPointCloud (deref st target_cloud) (255, 0, 0) "target") st
    let st := emit (.addPointCloud (deref st source_cloud) (0, 255, 0) "source") st
    let st := emit (.addPointCloud (deref st aligned) (0, 0, 255) "aligned") st
    let st := emit .spin (setWorld (env.spin st.world) st)
    (0, st)

/-! ## Vocabulary of the statements -/

/-- The events of one guarded save: the call, then the report on `std::cerr`
when the status is nonzero. -/
def save_events (path : String) (cloud : PointCloud P) (ret : Int) : List (Event P T S) :=
  .savePCDFileASCII path cloud ret ::
    (if ret ≠ 0 then [.cerr [.str "failed to save ", .str path, .endl]] else [])

/-- The outputs of `n` consecutive alignment passes started on the buffer
contents `c` in the world `w`, oldest first, and the world after them. -/
def pass_outputs (env : Library P W T S) (registration : Registration) :
    Nat → PointCloud P → W → List (PointCloud P) × W
  | 0, _, w => ([], w)
  | n + 1, c, w =>
    let r := env.align registration c w
    let rest := pass_outputs env registration n r.1 r.2
    (r.1 :: rest.1, rest.2)

/-- The cloud left in the buffer `aligned` by the eleven passes of one driver
call on the clouds `ct` and `cs` from the world `w`.  No save enters it. -/
def aligned_output (env : Library P W T S) (registration : Registration)
    (ct cs : PointCloud P) (w : W) : PointCloud P :=
  let w1 := env.setInputTarget registration ct w
  let w2 := env.setInputSource registration cs w1
  let n1 := env.now w2
  let p1 := env.align registration [] n1.2
  let n2 := env.now p1.2
  (pass_outputs env registration 10 p1.1 n2.2).1.getLastD p1.1

/-- The events of one call of the driver, in terms of the values the library
returned: time stamps `t1 t2 t3`, first output `o1`, the ten further outputs
`outs`, fitness `f`, save statuses `r1 r2 r3`; `cs`, `ct` and `a` are the
source, target and aligned contents at the time of the saves. -/
def align_events (registration : Registration) (registration_name : String)
    (target source : PointCloud P) (t1 t2 t3 : T) (o1 : PointCloud P)
    (outs : List (PointCloud P)) (f : S) (cs ct a : PointCloud P) (r1 r2 r3 : Int) :
    List (Event P T S) :=
  [.call_align registration registration_name target source,
    .setInputTarget registration target,
    .setInputSource registration source,
    .now t1, .align registration o1, .now t2,
    .cout [.str "single: ", .msec t1 t2, .str " [msec]", .endl]] ++
  outs.map (Event.align registration) ++
  [.now t3, .cout [.str "10 times: ", .msec t2 t3, .str " [msec]", .endl],
    .getFitnessScore registration f,
    .cout [.str "fitness: ", .score f, .endl, .endl]] ++
  save_events ("/home/pcd/" ++ registration_name ++ "_source.pcd") cs r1 ++
  save_events ("/home/pcd/" ++ registration_name ++ "_target.pcd") ct r2 ++
  save_events ("/home/pcd/" ++ registration_name ++ "_aligned.pcd") a r3

/-- The list `run` is the log of one driver call with the given handle and
name on the clouds `ct` (target) and `cs` (source). -/
def IsAlignRun (registration : Registration) (registration_name : String)
    (ct cs : PointCloud P) (run : List (Event P T S)) : Prop :=
  ∃ (t1 t2 t3 : T) (o1 : PointCloud P) (outs : List (PointCloud P)) (f : S)
    (r1 r2 r3 : Int), outs.length = 10 ∧
    run = align_events registration registration_name ct cs t1 t2 t3 o1 outs f cs ct
      (outs.getLastD o1) r1 r2 r3

/-- The log of a sequence of benchmark configurations on the clouds `ct` and
`cs`: for each configuration (header line, handle, name) the header on
`std::cout`, then one driver call. -/
inductive SweepLog (ct cs : PointCloud P) :
    List (List (Tok T S) × Registration × String) → List (Event P T S) → Prop
  | nil : SweepLog ct cs [] []
  | snoc (cfgs : List (List (Tok T S) × Registration × String)) (evs : List (Event P T S))
      (hdr : List (Tok T S)) (registration : Registration) (registration_name : String)
      (run : List (Event P T S)) :
      SweepLog ct cs cfgs evs → IsAlignRun registration registration_name ct cs run →
      SweepLog ct cs (cfgs ++ [(hdr, registration, registration_name)])
        (evs ++ .cout hdr :: run)

/-- The driver invocations recorded in a log, oldest first: handle, name,
target contents, source contents. -/
def driver_calls (log : List (Event P T S)) :
    List (Registration × String × PointCloud P × PointCloud P) :=
  log.filterMap fun e =>
    match e with
    | .call_align r n t s => some (r, n, t, s)
    | _ => none

/-- The artifacts handed to `savePCDFileASCII` in a log, oldest first: path
and contents. -/
def saved_artifacts (log : List (Event P T S)) : List (String × PointCloud P) :=
  log.filterMap fun e =>
    match e with
    | .savePCDFileASCII p c _ => some (p, c)
    | _ => none

/-- The saves and the lines on `std::cerr` of a log, oldest first. -/
def save_reports (log : List (Event P T S)) : List (Event P T S) :=
  log.filter fun e =>
    match e with
    | .savePCDFileASCII _ _ _ => true
    | .cerr _ => true
    | _ => false

/-- The operand is the usage text. -/
def Tok.is_usage : Tok T S → Bool
  | .str s => s == "usage: align target.pcd source.pcd"
  | _ => false

/-- The event is an output statement on `std::cout` that prints the usage
text. -/
def prints_usage : Event P T S → Bool
  | .cout toks => toks.any Tok.is_usage
  | _ => false

/-- The output statements of a log that print the usage text. -/
def usage_lines (log : List (Event P T S)) : List (Event P T S) :=
  log.filter prints_usage

/-- The three paths the driver saves to for the configuration name `n`. -/
def artifact_paths (n : String) : List String :=
  ["/home/pcd/" ++ n ++ "_source.pcd", "/home/pcd/" ++ n ++ "_target.pcd",
    "/home/pcd/" ++ n ++ "_aligned.pcd"]

/-- The state between two driver calls of the benchmark: the pointers `t` and
`s` are valid and hold `ct` and `cs`, and the log is `base` followed by the
log of the configurations `cfgs`. -/
def Ready (t s : Nat) (ct cs : PointCloud P) (base : List (Event P T S))
    (cfgs : List (List (Tok T S) × Registration × String)) (st : Sys P W T S) : Prop :=
  t < st.heap.length ∧ s < st.heap.length ∧ deref st t = ct ∧ deref st s = cs ∧
    ∃ evs, SweepLog ct cs cfgs evs ∧ st.log = base ++ evs

/-- The handle `ndt_omp` of class `c` and resolution `res` once set to thread
count `n` and search method `m`. -/
def sweep_handle (c : RegistrationClass) (res : Option ℚ) (n : Int)
    (m : NeighborSearchMethod) : Registration :=
  ⟨c, res, some n, some m⟩

/-- The artifact name of the sweep point with thread count `n` and the search
method called `m`. -/
def sweep_name (m : String) (n : Int) : String :=
  "pclomp_ndt_" ++ m ++ "_" ++ to_string n ++ "_threads"

/-- The header line of the sweep point with thread count `n` and the search
method called `m`. -/
def sweep_header (m : String) (n : Int) : List (Tok T S) :=
  [.str "--- pclomp::NDT (", .str m, .str ", ", .int n, .str " threads) ---", .endl]

/-- The status and cloud returned by the load of the target file, `argv[1]`. -/
def target_load (env : Library P W T S) (argv : List String) (w : W) :
    (Int × PointCloud P) × W :=
  env.loadPCDFile (argv.getD 1 "") w

/-- The status and cloud returned by the load of the source file, `argv[2]`,
which follows the load of the target. -/
def source_load (env : Library P W T S) (argv : List String) (w : W) :
    (Int × PointCloud P) × W :=
  env.loadPCDFile (argv.getD 2 "") (target_load env argv w).2

/-- The leaf size passed to `setLeafSize`. -/
def leaf_size : ℚ × ℚ × ℚ := (1 / 10, 1 / 10, 1 / 10)

/-- The events of `main` before the benchmark section, when both loads
succeed. -/
def prologue_events (env : Library P W T S) (argv : List String) (w : W) :
    List (Event P T S) :=
  [.loadPCDFile (argv.getD 1 "") 0, .loadPCDFile (argv.getD 2 "") 0,
    .filter leaf_size (target_load env argv w).1.2
      (env.filter leaf_size (target_load env argv w).1.2),
    .filter leaf_size (source_load env argv w).1.2
      (env.filter leaf_size (source_load env argv w).1.2),
    .time_init]

/-- The configurations of a complete run for `M` available threads, in the
order of the calls: header line, handle, artifact name. -/
def configurations (T S : Type) (M : Int) : List (List (Tok T S) × Registration × String) :=
  [([.str "--- pcl::GICP ---", .endl], Registration.new .pcl_gicp, "pcl_gicp"),
    ([.str "--- pclomp::GICP ---", .endl], Registration.new .pclomp_gicp, "pclomp_gicp"),
    ([.str "--- pcl::NDT ---", .endl], (Registration.new .pcl_ndt).setResolution 1, "pcl_ndt"),
    (sweep_header "KDTREE" 1, sweep_handle .pclomp_ndt (some 1) 1 .KDTREE,
      sweep_name "KDTREE" 1),
    (sweep_header "DIRECT7" 1, sweep_handle .pclomp_ndt (some 1) 1 .DIRECT7,
      sweep_name "DIRECT7" 1),
    (sweep_header "DIRECT1" 1, sweep_handle .pclomp_ndt (some 1) 1 .DIRECT1,
      sweep_name "DIRECT1" 1),
    (sweep_header "KDTREE" M, sweep_handle .pclomp_ndt (some 1) M .KDTREE,
      sweep_name "KDTREE" M),
    (sweep_header "DIRECT7" M, sweep_handle .pclomp_ndt (some 1) M .DIRECT7,
      sweep_name "DIRECT7" M),
    (sweep_header "DIRECT1" M, sweep_handle .pclomp_ndt (some 1) M .DIRECT1,
      sweep_name "DIRECT1" M)]

/-- The library `env` with its PCD writer replaced by `sv`. -/
def with_save (env : Library P W T S) (sv : String → PointCloud P → W → Int × W) :
    Library P W T S :=
  { env with savePCDFileASCII := sv }

/-- The seven counter names tested on line 39. -/
def counter_names : List String :=
  ["VmPeak", "VmSize", "VmStk", "VmData", "VmRSS", "VmLib", "VmPTE"]

/-- The line names a counter: one of the seven names occurs in it. -/
def names_counter (line : String) : Bool :=
  counter_names.any fun c => decide (c.data <:+: line.data)

/-- The line has the form `<Name>:<whitespace><decimal digits> kB`, with
`name` free of colons and the digits writing the number `kB`. -/
def StatusLine (line name : String) (kB : Nat) : Prop :=
  ∃ ws digits : List Char, ':' ∉ name.data ∧ (∀ c ∈ ws, isspace c = true) ∧ digits ≠ [] ∧
    (∀ c ∈ digits, c.isDigit = true) ∧ decimal_value digits = kB ∧
    line = name ++ ":" ++ String.mk ws ++ String.mk digits ++ " kB"

/-- The three header lines of the memory table. -/
def table_header : List (List Item) :=
  [[.str (String.mk (List.replicate 30 '=')), .endl],
    [.field 15 "Memory Type", .field 15 "Size (MB)", .endl],
    [.str (String.mk (List.replicate 30 '-')), .endl]]

/-! ## Concrete inputs -/

/-- A concrete library over natural numbers: clouds are lists of numbers, the
world is a counter.  A load and a save fail on the paths listed in `bad`; `M`
is the value of `omp_get_max_threads`. -/
def sample_env (M : Int) (bad : List String) : Library Nat Nat Nat Nat where
  loadPCDFile := fun path w => ((if path ∈ bad then -1 else 0, [path.length, w]), w + 1)
  savePCDFileASCII := fun path _ w => (if path ∈ bad then -1 else 0, w + 1)
  filter := fun _ c => c.map (· + 1)
  now := fun w => (w, w + 1)
  setInputTarget := fun _ _ w => w + 1
  setInputSource := fun _ _ w => w + 1
  align := fun _ c w => (w :: c.take 1, w + 1)
  getFitnessScore := fun _ w => (w, w + 1)
  omp_get_max_threads := M
  time_init := fun w => w
  spin := fun w => w + 1

/-- The argument vector `align t.pcd s.pcd`. -/
def sample_argv : List String := ["align", "t.pcd", "s.pcd"]

/-- A state with two cloud objects, at addresses 0 and 1. -/
def sample_state : Sys Nat Nat Nat Nat := ⟨0, [[1, 2, 3], [4, 5]], []⟩

/-- A status file with two of the seven counters. -/
def sample_status : List String :=
  ["Name:\talign", "VmPeak:\t  123456 kB", "VmHWM:\t   34 kB", "VmRSS:\t 2048 kB",
    "Threads:\t1"]

/-- A status text whose two counters are `2 ^ 53 + 1` and `2 ^ 53 + 15`
kilobytes. -/
def rounding_status : List String :=
  ["VmPeak:\t9007199254740993 kB", "VmRSS:\t9007199254741007 kB"]

/-! ## Elementary facts about the state operations -/

theorem set_length_append {α : Type} (l : List α) (c d : α) :
    (l ++ [c]).set l.length d = l ++ [d] := by
  induction l with
  | nil => rfl
  | cons x xs ih => simp [ih]

theorem getD_append_length {α : Type} (l : List α) (c d : α) :
    (l ++ [c]).getD l.length d = c := by
  induction l with
  | nil => rfl
  | cons x xs ih => simp [ih]

theorem getD_append_lt {α : Type} (l : List α) (c d : α) (p : Nat) (h : p < l.length) :
    (l ++ [c]).getD p d = l.getD p d := by
  induction l generalizing p with
  | nil => simp at h
  | cons x xs ih =>
    cases p with
    | zero => rfl
    | succ q => simpa using ih q (by simpa using h)

theorem emit_log (e : Event P T S) (st : Sys P W T S) : (emit e st).log = st.log ++ [e] :=
  rfl

theorem emit_heap (e : Event P T S) (st : Sys P W T S) : (emit e st).heap = st.heap :=
  rfl

theorem setWorld_log (w : W) (st : Sys P W T S) : (setWorld w st).log = st.log :=
  rfl

theorem setWorld_heap (w : W) (st : Sys P W T S) : (setWorld w st).heap = st.heap :=
  rfl

/-! ## The driver, step by step -/

theorem save_or_report_eq (env : Library P W T S) (path : String) (cloud : PointCloud P)
    (w : W) (h : List (PointCloud P)) (log : List (Event P T S)) :
    save_or_report env path cloud ⟨w, h, log⟩ =
      ⟨(env.savePCDFileASCII path cloud w).2, h,
        log ++ save_events path cloud (env.savePCDFileASCII path cloud w).1⟩ := by
  unfold save_or_report save_events emit setWorld
  by_cases hr : (env.savePCDFileASCII path cloud w).1 = 0 <;> simp [hr]

theorem pass_outputs_length (env : Library P W T S) (registration : Registration) (n : Nat) :
    ∀ (c : PointCloud P) (w : W), (pass_outputs env registration n c w).1.length = n := by
  induction n with
  | zero => intro c w; rfl
  | succ k ih => intro c w; simp [pass_outputs, ih]

theorem align_loop_eq (env : Library P W T S) (registration : Registration)
    (l : List (PointCloud P)) (n : Nat) :
    ∀ (w : W) (c : PointCloud P) (log : List (Event P T S)),
      align_loop env registration l.length n ⟨w, l ++ [c], log⟩ =
        ⟨(pass_outputs env registration n c w).2,
          l ++ [(pass_outputs env registration n c w).1.getLastD c],
          log ++ (pass_outputs env registration n c w).1.map (Event.align registration)⟩ := by
  induction n with
  | zero => intro w c log; simp [align_loop, pass_outputs]
  | succ k ih =>
    intro w c log
    simp only [align_loop, align_pass, emit, store, setWorld, deref, getD_append_length,
      set_length_append, pass_outputs]
    rw [ih]
    simp only [List.map_cons, List.append_assoc, List.singleton_append, List.getLastD_cons]

/-- One call of the driver, from any state: the address returned is the fresh
cell, the heap grows by that cell, which holds the output of the last pass, and
the log grows by `align_events`. -/
theorem align_eq (env : Library P W T S) (registration : Registration)
    (registration_name : String) (t s : Nat) (st : Sys P W T S) :
    ∃ (t1 t2 t3 : T) (o1 : PointCloud P) (outs : List (PointCloud P)) (f : S)
      (r1 r2 r3 : Int) (w2 : W) (cs ct : PointCloud P),
      align env registration registration_name t s st =
        (st.heap.length, ⟨w2, st.heap ++ [outs.getLastD o1],
          st.log ++ align_events registration registration_name (deref st t) (deref st s)
            t1 t2 t3 o1 outs f cs ct (outs.getLastD o1) r1 r2 r3⟩) ∧
      outs.length = 10 ∧
      (s < st.heap.length → cs = deref st s) ∧ (t < st.heap.length → ct = deref st t) ∧
      outs.getLastD o1 =
        aligned_output env registration (deref st t) (deref st s) st.world := by
  obtain ⟨w, h, log⟩ := st
  simp only [align, new_cloud, wall_now, align_pass, emit, setWorld, store, deref,
    getD_append_length, set_length_append, List.append_assoc, List.singleton_append,
    List.cons_append, List.nil_append, align_events]
  simp only [align_loop_eq, save_or_report_eq, List.append_assoc, List.singleton_append,
    List.cons_append, List.nil_append, getD_append_length]
  exact ⟨_, _, _, _, _, _, _, _, _, _, _, _, rfl, pass_outputs_length env registration 10 _ _,
    fun hs => getD_append_lt _ _ _ _ hs, fun ht => getD_append_lt _ _ _ _ ht, rfl⟩

/-! ## Projections of the log -/

theorem driver_calls_append (l1 l2 : List (Event P T S)) :
    driver_calls (l1 ++ l2) = driver_calls l1 ++ driver_calls l2 := by
  simp [driver_calls]

theorem saved_artifacts_append (l1 l2 : List (Event P T S)) :
    saved_artifacts (l1 ++ l2) = saved_artifacts l1 ++ saved_artifacts l2 := by
  simp [saved_artifacts]

theorem save_reports_append (l1 l2 : List (Event P T S)) :
    save_reports (l1 ++ l2) = save_reports l1 ++ save_reports l2 := by
  simp [save_reports]

theorem usage_lines_append (l1 l2 : List (Event P T S)) :
    usage_lines (l1 ++ l2) = usage_lines l1 ++ usage_lines l2 := by
  simp [usage_lines]

theorem driver_calls_passes (registration : Registration) (outs : List (PointCloud P)) :
    driver_calls (outs.map (Event.align registration) : List (Event P T S)) = [] := by
  induction outs with
  | nil => rfl
  | cons o os ih => simp [driver_calls]

theorem saved_artifacts_passes (registration : Registration) (outs : List (PointCloud P)) :
    saved_artifacts (outs.map (Event.align registration) : List (Event P T S)) = [] := by
  induction outs with
  | nil => rfl
  | cons o os ih => simp [saved_artifacts]

theorem save_reports_passes (registration : Registration) (outs : List (PointCloud P)) :
    save_reports (outs.map (Event.align registration) : List (Event P T S)) = [] := by
  induction outs with
  | nil => rfl
  | cons o os ih => simp [save_reports]

theorem usage_lines_passes (registration : Registration) (outs : List (PointCloud P)) :
    usage_lines (outs.map (Event.align registration) : List (Event P T S)) = [] := by
  induction outs with
  | nil => rfl
  | cons o os ih => simp [usage_lines, prints_usage]

theorem driver_calls_save_events (path : String) (c : PointCloud P) (r : Int) :
    driver_calls (save_events path c r : List (Event P T S)) = [] := by
  unfold save_events
  by_cases hr : r = 0 <;> simp [driver_calls, hr]

theorem saved_artifacts_save_events (path : String) (c : PointCloud P) (r : Int) :
    saved_artifacts (save_events path c r : List (Event P T S)) = [(path, c)] := by
  unfold save_events
  by_cases hr : r = 0 <;> simp [saved_artifacts, hr]

theorem save_reports_save_events (path : String) (c : PointCloud P) (r : Int) :
    save_reports (save_events path c r : List (Event P T S)) = save_events path c r := by
  unfold save_events
  by_cases hr : r = 0 <;> simp [save_reports, hr]

theorem usage_lines_save_events (path : String) (c : PointCloud P) (r : Int) :
    usage_lines (save_events path c r : List (Event P T S)) = [] := by
  unfold save_events
  by_cases hr : r = 0 <;> simp [usage_lines, prints_usage, hr]

theorem driver_calls_align_events (registration : Registration) (registration_name : String)
    (target source : PointCloud P) (t1 t2 t3 : T) (o1 : PointCloud P)
    (outs : List (PointCloud P)) (f : S) (cs ct a : PointCloud P) (r1 r2 r3 : Int) :
    driver_calls (align_events registration registration_name target source
      t1 t2 t3 o1 outs f cs ct a r1 r2 r3) =
      [(registration, registration_name, target, source)] := by
  simp only [align_events, driver_calls_append, driver_calls_passes,
    driver_calls_save_events]
  simp [driver_calls]

theorem saved_artifacts_align_events (registration : Registration)
    (registration_name : String) (target source : PointCloud P) (t1 t2 t3 : T)
    (o1 : PointCloud P) (outs : List (PointCloud P)) (f : S) (cs ct a : PointCloud P)
    (r1 r2 r3 : Int) :
    saved_artifacts (align_events registration registration_name target source
      t1 t2 t3 o1 outs f cs ct a r1 r2 r3) =
      [("/home/pcd/" ++ registration_name ++ "_source.pcd", cs),
        ("/home/pcd/" ++ registration_name ++ "_target.pcd", ct),
        ("/home/pcd/" ++ registration_name ++ "_aligned.pcd", a)] := by
  simp only [align_events, saved_artifacts_append, saved_artifacts_passes,
    saved_artifacts_save_events]
  simp [saved_artifacts]

theorem save_reports_align_events (registration : Registration)
    (registration_name : String) (target source : PointCloud P) (t1 t2 t3 : T)
    (o1 : PointCloud P) (outs : List (PointCloud P)) (f : S) (cs ct a : PointCloud P)
    (r1 r2 r3 : Int) :
    save_reports (align_events registration registration_name target source
      t1 t2 t3 o1 outs f cs ct a r1 r2 r3) =
      save_events ("/home/pcd/" ++ registration_name ++ "_source.pcd") cs r1 ++
      save_events ("/home/pcd/" ++ registration_name ++ "_target.pcd") ct r2 ++
      save_events ("/home/pcd/" ++ registration_name ++ "_aligned.pcd") a r3 := by
  simp only [align_events, save_reports_append, save_reports_passes,
    save_reports_save_events]
  simp [save_reports]

theorem usage_lines_align_events (registration : Registration)
    (registration_name : String) (target source : PointCloud P) (t1 t2 t3 : T)
    (o1 : PointCloud P) (outs : List (PointCloud P)) (f : S) (cs ct a : PointCloud P)
    (r1 r2 r3 : Int) :
    usage_lines (align_events registration registration_name target source
      t1 t2 t3 o1 outs f cs ct a r1 r2 r3) = [] := by
  simp only [align_events, usage_lines_append, usage_lines_passes,
    usage_lines_save_events]
  simp [usage_lines, prints_usage, Tok.is_usage]

/-! ## The benchmark section of `main` -/

theorem ready_step {t s : Nat} {ct cs : PointCloud P} {base : List (Event P T S)}
    {cfgs : List (List (Tok T S) × Registration × String)} {st : Sys P W T S}
    (env : Library P W T S) (hdr : List (Tok T S)) (registration : Registration)
    (registration_name : String) (h : Ready t s ct cs base cfgs st) :
    Ready t s ct cs base (cfgs ++ [(hdr, registration, registration_name)])
      (align env registration registration_name t s (emit (.cout hdr) st)).2 := by
  obtain ⟨h1, h2, h3, h4, evs, h5, h6⟩ := h
  obtain ⟨t1, t2, t3, o1, outs, f, r1, r2, r3, w2, cs2, ct2, heq, hlen, hcs, hct, _⟩ :=
    align_eq env registration registration_name t s (emit (.cout hdr) st)
  have hcs2 : cs2 = cs := (hcs h2).trans h4
  have hct2 : ct2 = ct := (hct h1).trans h3
  have h3b : deref (emit (Event.cout hdr) st) t = ct := h3
  have h4b : deref (emit (Event.cout hdr) st) s = cs := h4
  rw [heq, h3b, h4b, hcs2, hct2]
  refine ⟨?_, ?_, ?_, ?_, ?_⟩
  · simp only [emit_heap, List.length_append, List.length_singleton]; omega
  · simp only [emit_heap, List.length_append, List.length_singleton]; omega
  · exact (getD_append_lt _ _ _ _ h1).trans h3
  · exact (getD_append_lt _ _ _ _ h2).trans h4
  · refine ⟨evs ++ Event.cout hdr :: align_events registration registration_name ct cs
      t1 t2 t3 o1 outs f cs ct (outs.getLastD o1) r1 r2 r3, ?_, ?_⟩
    · exact SweepLog.snoc cfgs evs hdr registration registration_name _ h5
        ⟨t1, t2, t3, o1, outs, f, r1, r2, r3, hlen, rfl⟩
    · simp only [emit_log, h6, List.append_assoc, List.singleton_append]

theorem sweep_body_ready {t s : Nat} {ct cs : PointCloud P} {base : List (Event P T S)}
    {cfgs : List (List (Tok T S) × Registration × String)}
    (env : Library P W T S) (c : RegistrationClass) (res : Option ℚ) (n : Int)
    (l : Loop P W T S) (m : String × NeighborSearchMethod)
    (hc : l.ndt_omp.cls = c) (hr : l.ndt_omp.resolution = res)
    (h : Ready t s ct cs base cfgs l.st) :
    (sweep_body env t s n l m).ndt_omp.cls = c ∧
    (sweep_body env t s n l m).ndt_omp.resolution = res ∧
    Ready t s ct cs base
      (cfgs ++ [(sweep_header m.1 n, sweep_handle c res n m.2, sweep_name m.1 n)])
      (sweep_body env t s n l m).st := by
  refine ⟨hc, hr, ?_⟩
  have hreg : (l.ndt_omp.setNumThreads n).setNeighborhoodSearchMethod m.2 =
      sweep_handle c res n m.2 := by
    simp [Registration.setNumThreads, Registration.setNeighborhoodSearchMethod, sweep_handle,
      hc, hr]
  simp only [sweep_body, hreg]
  exact ready_step env _ _ _ h

theorem sweep_inner_ready {t s : Nat} {ct cs : PointCloud P} {base : List (Event P T S)}
    (env : Library P W T S) (c : RegistrationClass) (res : Option ℚ) (n : Int)
    (ms : List (String × NeighborSearchMethod)) :
    ∀ (cfgs : List (List (Tok T S) × Registration × String))
      (l : Loop P W T S), l.ndt_omp.cls = c → l.ndt_omp.resolution = res →
      Ready t s ct cs base cfgs l.st →
      (ms.foldl (sweep_body env t s n) l).ndt_omp.cls = c ∧
      (ms.foldl (sweep_body env t s n) l).ndt_omp.resolution = res ∧
      Ready t s ct cs base
        (cfgs ++ ms.map fun m => (sweep_header m.1 n, sweep_handle c res n m.2,
          sweep_name m.1 n))
        (ms.foldl (sweep_body env t s n) l).st := by
  induction ms with
  | nil => intro cfgs l hc hr h; simpa using ⟨hc, hr, h⟩
  | cons m rest ih =>
    intro cfgs l hc hr h
    obtain ⟨hc2, hr2, h2⟩ := sweep_body_ready env c res n l m hc hr h
    have := ih _ _ hc2 hr2 h2
    simpa using this

theorem sweep_ready {t s : Nat} {ct cs : PointCloud P} {base : List (Event P T S)}
    (env : Library P W T S) (c : RegistrationClass) (res : Option ℚ)
    (ms : List (String × NeighborSearchMethod)) (ns : List Int) :
    ∀ (cfgs : List (List (Tok T S) × Registration × String))
      (l : Loop P W T S), l.ndt_omp.cls = c → l.ndt_omp.resolution = res →
      Ready t s ct cs base cfgs l.st →
      Ready t s ct cs base
        (cfgs ++ (ns.map fun n => ms.map fun m =>
          (sweep_header m.1 n, sweep_handle c res n m.2, sweep_name m.1 n)).flatten)
        (sweep env t s ns ms l).st := by
  induction ns with
  | nil => intro cfgs l _ _ h; simpa [sweep] using h
  | cons n rest ih =>
    intro cfgs l hc hr h
    obtain ⟨hc2, hr2, h2⟩ := sweep_inner_ready env c res n ms cfgs l hc hr h
    have := ih _ _ hc2 hr2 h2
    simpa [sweep] using this

/-- The three baseline calls and the sweep, from any state in which the
pointers `t` and `s` hold `ct` and `cs` and the log is `base`. -/
theorem benchmark_ready (env : Library P W T S) (t s : Nat) (ct cs : PointCloud P)
    (base : List (Event P T S)) (X : Sys P W T S) (hX : Ready t s ct cs base [] X) :
    Ready t s ct cs base (configurations T S env.omp_get_max_threads)
      (sweep env t s [1, env.omp_get_max_threads]
        [("KDTREE", .KDTREE), ("DIRECT7", .DIRECT7), ("DIRECT1", .DIRECT1)]
        ⟨(Registration.new .pclomp_ndt).setResolution 1,
          (align env ((Registration.new .pcl_ndt).setResolution 1) "pcl_ndt" t s
            (emit (.cout [.str "--- pcl::NDT ---", .endl])
              (align env (Registration.new .pclomp_gicp) "pclomp_gicp" t s
                (emit (.cout [.str "--- pclomp::GICP ---", .endl])
                  (align env (Registration.new .pcl_gicp) "pcl_gicp" t s
                    (emit (.cout [.str "--- pcl::GICP ---", .endl]) X)).2)).2)).1,
          (align env ((Registration.new .pcl_ndt).setResolution 1) "pcl_ndt" t s
            (emit (.cout [.str "--- pcl::NDT ---", .endl])
              (align env (Registration.new .pclomp_gicp) "pclomp_gicp" t s
                (emit (.cout [.str "--- pclomp::GICP ---", .endl])
                  (align env (Registration.new .pcl_gicp) "pcl_gicp" t s
                    (emit (.cout [.str "--- pcl::GICP ---", .endl]) X)).2)).2)).2⟩).st := by
  have h3 := ready_step env [.str "--- pcl::NDT ---", .endl]
    ((Registration.new .pcl_ndt).setResolution 1) "pcl_ndt"
    (ready_step env [.str "--- pclomp::GICP ---", .endl]
      (Registration.new .pclomp_gicp) "pclomp_gicp"
      (ready_step env [.str "--- pcl::GICP ---", .endl]
        (Registration.new .pcl_gicp) "pcl_gicp" hX))
  exact sweep_ready env .pclomp_ndt (some 1)
    [("KDTREE", .KDTREE), ("DIRECT7", .DIRECT7), ("DIRECT1", .DIRECT1)]
    [1, env.omp_get_max_threads] _ ⟨_, _, _⟩ rfl rfl h3

/-- A complete run of `main`: exit status 0, and the log is the prologue, the
log of the nine configurations on the downsampled clouds, and the viewer. -/
theorem main_log (env : Library P W T S) (argv : List String) (w : W)
    (hargc : argv.length = 3) (ht : (target_load env argv w).1.1 = 0)
    (hs : (source_load env argv w).1.1 = 0) :
    ∃ (evs : List (Event P T S)) (a : PointCloud P),
      SweepLog (env.filter leaf_size (target_load env argv w).1.2)
        (env.filter leaf_size (source_load env argv w).1.2)
        (configurations T S env.omp_get_max_threads) evs ∧
      (main env argv w).1 = 0 ∧
      (main env argv w).2.log = prologue_events env argv w ++ evs ++
        [.visualizer "vis",
          .addPointCloud (env.filter leaf_size (target_load env argv w).1.2) (255, 0, 0)
            "target",
          .addPointCloud (env.filter leaf_size (source_load env argv w).1.2) (0, 255, 0)
            "source",
          .addPointCloud a (0, 0, 255) "aligned", .spin] := by
  have ht2 : (load_into env (argv.getD 1 "") 0
      (new_cloud (new_cloud (Sys.init w : Sys P W T S)).2).2).1 = 0 := ht
  have hs2 : (load_into env (argv.getD 2 "") 1 (load_into env (argv.getD 1 "") 0
      (new_cloud (new_cloud (Sys.init w : Sys P W T S)).2).2).2).1 = 0 := hs
  have h0 : (new_cloud (Sys.init w : Sys P W T S)).1 = 0 := rfl
  have h1 : (new_cloud (new_cloud (Sys.init w : Sys P W T S)).2).1 = 1 := rfl
  have h2 : (new_cloud (load_into env (argv.getD 2 "") 1 (load_into env (argv.getD 1 "") 0
      (new_cloud (new_cloud (Sys.init w : Sys P W T S)).2).2).2).2).1 = 2 := rfl
  simp only [main, hargc, ne_eq, not_true_eq_false, if_false, h0, h1, h2, ht2, hs2]
  generalize hL : sweep env 0 2 _ _ _ = L
  have hR : Ready 0 2 (env.filter leaf_size (target_load env argv w).1.2)
      (env.filter leaf_size (source_load env argv w).1.2) (prologue_events env argv w)
      (configurations T S env.omp_get_max_threads) L.st := by
    rw [← hL]
    refine benchmark_ready env 0 2 _ _ _ _ ?_
    unfold target_load at ht
    unfold source_load target_load at hs
    simp only [List.getD_eq_getElem?_getD] at ht hs
    refine ⟨?_, ?_, ?_, ?_, [], SweepLog.nil, ?_⟩ <;>
    simp [emit, setWorld, voxel_filter, store, deref, new_cloud, load_into,
      Sys.init, target_load, source_load, leaf_size, prologue_events, ht, hs]
  obtain ⟨_, _, hd1, hd2, evs, hsw, hlog⟩ := hR
  refine ⟨evs, deref L.st L.aligned, hsw, trivial, ?_⟩
  simp only [emit_log, setWorld_log, emit_heap, setWorld_heap, deref] at hd1 hd2 ⊢
  rw [hlog, hd1, hd2]
  simp only [List.append_assoc, List.singleton_append, List.cons_append, List.nil_append]

/-! ## The runs of `main` that stop early -/

theorem main_usage (env : Library P W T S) (argv : List String) (w : W)
    (hargc : argv.length ≠ 3) :
    main env argv w =
      (0, ⟨w, [], [.cout [.str "usage: align target.pcd source.pcd", .endl]]⟩) := by
  simp only [main, hargc, ne_eq, not_false_eq_true, if_true]
  rfl

theorem main_target_fail (env : Library P W T S) (argv : List String) (w : W)
    (hargc : argv.length = 3) (ht : (target_load env argv w).1.1 ≠ 0) :
    (main env argv w).1 = 0 ∧
    (main env argv w).2.log =
      [.loadPCDFile (argv.getD 1 "") (target_load env argv w).1.1,
        .cerr [.str "failed to load ", .str (argv.getD 1 ""), .endl]] := by
  have ht2 : (load_into env (argv.getD 1 "") 0
      (new_cloud (new_cloud (Sys.init w : Sys P W T S)).2).2).1 ≠ 0 := ht
  have h0 : (new_cloud (Sys.init w : Sys P W T S)).1 = 0 := rfl
  simp only [main, hargc, ne_eq, not_true_eq_false, if_false, h0, ht2, not_false_eq_true,
    if_true]
  exact ⟨trivial, rfl⟩

theorem main_source_fail (env : Library P W T S) (argv : List String) (w : W)
    (hargc : argv.length = 3) (ht : (target_load env argv w).1.1 = 0)
    (hs : (source_load env argv w).1.1 ≠ 0) :
    (main env argv w).1 = 0 ∧
    (main env argv w).2.log =
      [.loadPCDFile (argv.getD 1 "") 0,
        .loadPCDFile (argv.getD 2 "") (source_load env argv w).1.1,
        .cerr [.str "failed to load ", .str (argv.getD 2 ""), .endl]] := by
  have ht2 : (load_into env (argv.getD 1 "") 0
      (new_cloud (new_cloud (Sys.init w : Sys P W T S)).2).2).1 = 0 := ht
  have hs2 : (load_into env (argv.getD 2 "") 1 (load_into env (argv.getD 1 "") 0
      (new_cloud (new_cloud (Sys.init w : Sys P W T S)).2).2).2).1 ≠ 0 := hs
  have h0 : (new_cloud (Sys.init w : Sys P W T S)).1 = 0 := rfl
  have h1 : (new_cloud (new_cloud (Sys.init w : Sys P W T S)).2).1 = 1 := rfl
  simp only [main, hargc, ne_eq, not_true_eq_false, if_false, h0, h1, ht2, hs2,
    not_false_eq_true, if_true]
  refine ⟨trivial, ?_⟩
  unfold target_load at ht
  simp only [List.getD_eq_getElem?_getD] at ht
  simp [emit, setWorld, store, new_cloud, load_into, Sys.init, source_load, target_load, ht]

/-! ## Projections of the log of a sequence of configurations -/

theorem sweepLog_driver_calls {ct cs : PointCloud P}
    {cfgs : List (List (Tok T S) × Registration × String)} {evs : List (Event P T S)}
    (h : SweepLog ct cs cfgs evs) :
    driver_calls evs = cfgs.map fun c => (c.2.1, c.2.2, ct, cs) := by
  induction h with
  | nil => rfl
  | snoc cfgs evs hdr registration registration_name run _ hrun ih =>
    obtain ⟨t1, t2, t3, o1, outs, f, r1, r2, r3, _, rfl⟩ := hrun
    rw [driver_calls_append, ih, List.map_append,
      show (Event.cout hdr :: align_events registration registration_name ct cs t1 t2 t3 o1
        outs f cs ct (outs.getLastD o1) r1 r2 r3) = [Event.cout hdr] ++ align_events
        registration registration_name ct cs t1 t2 t3 o1 outs f cs ct (outs.getLastD o1)
        r1 r2 r3 from rfl,
      driver_calls_append, driver_calls_align_events]
    rfl

theorem sweepLog_saved_paths {ct cs : PointCloud P}
    {cfgs : List (List (Tok T S) × Registration × String)} {evs : List (Event P T S)}
    (h : SweepLog ct cs cfgs evs) :
    (saved_artifacts evs).map (fun x => x.1) =
      (cfgs.map fun c => artifact_paths c.2.2).flatten := by
  induction h with
  | nil => rfl
  | snoc cfgs evs hdr registration registration_name run _ hrun ih =>
    obtain ⟨t1, t2, t3, o1, outs, f, r1, r2, r3, _, rfl⟩ := hrun
    rw [saved_artifacts_append, List.map_append, ih,
      show (Event.cout hdr :: align_events registration registration_name ct cs t1 t2 t3 o1
        outs f cs ct (outs.getLastD o1) r1 r2 r3) = [Event.cout hdr] ++ align_events
        registration registration_name ct cs t1 t2 t3 o1 outs f cs ct (outs.getLastD o1)
        r1 r2 r3 from rfl,
      saved_artifacts_append, saved_artifacts_align_events]
    simp [saved_artifacts, artifact_paths]

theorem sweepLog_usage_lines {ct cs : PointCloud P}
    {cfgs : List (List (Tok T S) × Registration × String)} {evs : List (Event P T S)}
    (h : SweepLog ct cs cfgs evs) (hq : ∀ c ∈ cfgs, c.1.any Tok.is_usage = false) :
    usage_lines evs = [] := by
  induction h with
  | nil => rfl
  | snoc cfgs evs hdr registration registration_name run _ hrun ih =>
    obtain ⟨t1, t2, t3, o1, outs, f, r1, r2, r3, _, rfl⟩ := hrun
    have hhdr : hdr.any Tok.is_usage = false :=
      hq (hdr, registration, registration_name) (by simp)
    rw [usage_lines_append, ih fun c hc => hq c (List.mem_append_left _ hc),
      show (Event.cout hdr :: align_events registration registration_name ct cs t1 t2 t3 o1
        outs f cs ct (outs.getLastD o1) r1 r2 r3) = [Event.cout hdr] ++ align_events
        registration registration_name ct cs t1 t2 t3 o1 outs f cs ct (outs.getLastD o1)
        r1 r2 r3 from rfl,
      usage_lines_append, usage_lines_align_events]
    simp [usage_lines, prints_usage, hhdr]

theorem configurations_headers (M : Int) :
    ∀ c ∈ configurations T S M, c.1.any Tok.is_usage = false := by
  intro c hc
  simp only [configurations, List.mem_cons, List.mem_singleton, List.not_mem_nil, or_false]
    at hc
  rcases hc with rfl | rfl | rfl | rfl | rfl | rfl | rfl | rfl | rfl <;>
  simp [sweep_header, Tok.is_usage]

theorem main_driver_calls (env : Library P W T S) (argv : List String) (w : W)
    (hargc : argv.length = 3) (ht : (target_load env argv w).1.1 = 0)
    (hs : (source_load env argv w).1.1 = 0) :
    driver_calls (main env argv w).2.log =
      (configurations T S env.omp_get_max_threads).map fun c =>
        (c.2.1, c.2.2, env.filter leaf_size (target_load env argv w).1.2,
          env.filter leaf_size (source_load env argv w).1.2) := by
  obtain ⟨evs, a, hsw, _, hlog⟩ := main_log env argv w hargc ht hs
  rw [hlog, driver_calls_append, driver_calls_append, sweepLog_driver_calls hsw]
  simp [driver_calls, prologue_events]

theorem main_saved_paths (env : Library P W T S) (argv : List String) (w : W)
    (hargc : argv.length = 3) (ht : (target_load env argv w).1.1 = 0)
    (hs : (source_load env argv w).1.1 = 0) :
    (saved_artifacts (main env argv w).2.log).map (fun x => x.1) =
      ((configurations T S env.omp_get_max_threads).map fun c =>
        artifact_paths c.2.2).flatten := by
  obtain ⟨evs, a, hsw, _, hlog⟩ := main_log env argv w hargc ht hs
  rw [hlog, saved_artifacts_append, saved_artifacts_append, List.map_append, List.map_append,
    sweepLog_saved_paths hsw]
  simp [saved_artifacts, prologue_events]

theorem main_usage_lines (env : Library P W T S) (argv : List String) (w : W)
    (hargc : argv.length = 3) : usage_lines (main env argv w).2.log = [] := by
  by_cases ht : (target_load env argv w).1.1 = 0
  · by_cases hs : (source_load env argv w).1.1 = 0
    · obtain ⟨evs, a, hsw, _, hlog⟩ := main_log env argv w hargc ht hs
      rw [hlog, usage_lines_append, usage_lines_append,
        sweepLog_usage_lines hsw (configurations_headers _)]
      simp [usage_lines, prints_usage, prologue_events]
    · rw [(main_source_fail env argv w hargc ht hs).2]
      simp [usage_lines, prints_usage]
  · rw [(main_target_fail env argv w hargc ht).2]
    simp [usage_lines, prints_usage]

theorem main_first_event (env : Library P W T S) (argv : List String) (w : W)
    (hargc : argv.length = 3) :
    (main env argv w).2.log.head? =
      some (.loadPCDFile (argv.getD 1 "") (target_load env argv w).1.1) := by
  by_cases ht : (target_load env argv w).1.1 = 0
  · by_cases hs : (source_load env argv w).1.1 = 0
    · obtain ⟨evs, a, hsw, _, hlog⟩ := main_log env argv w hargc ht hs
      rw [hlog, ht]
      rfl
    · rw [(main_source_fail env argv w hargc ht hs).2, ht]
      rfl
  · rw [(main_target_fail env argv w hargc ht).2]
    rfl

/-! ## Names and paths as strings -/

theorem sweep_name_data (m : String) (n : Int) :
    (sweep_name m n).data =
      "pclomp_ndt_".data ++ (m.data ++ ('_' :: ((to_string n).data ++ "_threads".data))) := by
  simp [sweep_name, String.data_append]

theorem toDigitsCore_length_ge (f n : Nat) (ds : List Char) :
    ds.length ≤ (Nat.toDigitsCore 10 f n ds).length := by
  induction f generalizing n ds with
  | zero => simp [Nat.toDigitsCore]
  | succ k ih =>
    simp only [Nat.toDigitsCore]
    split
    · simp
    · exact Nat.le_trans (by simp) (ih _ _)

theorem repr_length_ge_two (m : Nat) (h : 10 ≤ m) : 2 ≤ (Nat.repr m).length := by
  obtain ⟨k, rfl⟩ : ∃ k, m = k + 1 := ⟨m - 1, by omega⟩
  have hq : (k + 1) / 10 ≠ 0 := by omega
  simp only [Nat.repr, Nat.toDigits, Nat.toDigitsCore, hq, if_false, String.length,
    List.asString]
  split
  · simp
  · exact Nat.le_trans (by simp) (toDigitsCore_length_ge _ _ _)

theorem to_string_eq_one (M : Int) (hM : 1 ≤ M) (h : to_string M = "1") : M = 1 := by
  obtain ⟨m, rfl⟩ : ∃ m : Nat, M = Int.ofNat m := ⟨M.toNat, by simp; omega⟩
  have h2 : Nat.repr m = "1" := h
  by_cases hm : 10 ≤ m
  · have := repr_length_ge_two m hm
    rw [h2] at this
    exact absurd this (by decide)
  · have hm2 : m < 10 := by omega
    have hm1 : 1 ≤ m := Int.ofNat_le.mp hM
    interval_cases m
    all_goals first | rfl | exact absurd h2 (by decide)

theorem configuration_names_nodup (M : Int) (hM : 2 ≤ M) :
    ((configurations T S M).map fun c => c.2.2).Nodup := by
  have key : to_string 1 ≠ to_string M := fun h =>
    absurd (to_string_eq_one M (by omega) h.symm) (by omega)
  have key2 : (to_string 1).data ≠ (to_string M).data := fun h => key (String.ext h)
  simp only [configurations, List.map, List.nodup_cons, List.mem_cons, List.mem_singleton,
    not_or, List.not_mem_nil, not_false_eq_true, List.nodup_nil, and_true]
  refine ⟨⟨?_, ?_, ?_, ?_, ?_, ?_, ?_, ?_⟩, ⟨?_, ?_, ?_, ?_, ?_, ?_, ?_⟩,
    ⟨?_, ?_, ?_, ?_, ?_, ?_⟩, ⟨?_, ?_, ?_, ?_, ?_⟩, ⟨?_, ?_, ?_, ?_⟩, ⟨?_, ?_, ?_⟩,
    ⟨?_, ?_⟩, ?_⟩
  all_goals intro h
  all_goals have h2 := congrArg String.data h
  all_goals simp [sweep_name_data] at h2
  all_goals exact key2 h2

theorem path_same_suffix (a b suf : String)
    (h : "/home/pcd/" ++ a ++ suf = "/home/pcd/" ++ b ++ suf) : a = b := by
  have h2 := congrArg String.data h
  simp only [String.data_append, List.append_assoc] at h2
  exact String.ext (List.append_cancel_right (List.append_cancel_left h2))

theorem path_source_target (a b : String) :
    "/home/pcd/" ++ a ++ "_source.pcd" ≠ "/home/pcd/" ++ b ++ "_target.pcd" := by
  intro h
  have h2 := congrArg String.data h
  simp only [String.data_append] at h2
  exact absurd (List.append_inj' h2 rfl).2 (by decide)

theorem path_source_aligned (a b : String) :
    "/home/pcd/" ++ a ++ "_source.pcd" ≠ "/home/pcd/" ++ b ++ "_aligned.pcd" := by
  intro h
  have h2 := congrArg String.data h
  simp only [String.data_append] at h2
  have h3 : "/home/pcd/".data ++ a.data ++ "_source.pcd".data =
      ("/home/pcd/".data ++ b.data ++ ['_']) ++ "aligned.pcd".data := by
    rw [h2]; simp
  exact absurd (List.append_inj' h3 rfl).2 (by decide)

theorem path_target_aligned (a b : String) :
    "/home/pcd/" ++ a ++ "_target.pcd" ≠ "/home/pcd/" ++ b ++ "_aligned.pcd" := by
  intro h
  have h2 := congrArg String.data h
  simp only [String.data_append] at h2
  have h3 : "/home/pcd/".data ++ a.data ++ "_target.pcd".data =
      ("/home/pcd/".data ++ b.data ++ ['_']) ++ "aligned.pcd".data := by
    rw [h2]; simp
  exact absurd (List.append_inj' h3 rfl).2 (by decide)

theorem artifact_paths_nodup (a : String) : (artifact_paths a).Nodup := by
  simp only [artifact_paths, List.nodup_cons, List.mem_cons, List.mem_singleton, not_or,
    List.not_mem_nil, not_false_eq_true, List.nodup_nil, and_true]
  exact ⟨⟨path_source_target a a, path_source_aligned a a⟩, path_target_aligned a a⟩

theorem artifact_paths_disjoint (a b : String) (h : a ≠ b) :
    List.Disjoint (artifact_paths a) (artifact_paths b) := by
  intro p ha hb
  simp only [artifact_paths, List.mem_cons, List.mem_singleton, List.not_mem_nil, or_false]
    at ha hb
  rcases ha with rfl | rfl | rfl <;> rcases hb with hb | hb | hb
  · exact h (path_same_suffix _ _ _ hb)
  · exact path_source_target _ _ hb
  · exact path_source_aligned _ _ hb
  · exact path_source_target _ _ hb.symm
  · exact h (path_same_suffix _ _ _ hb)
  · exact path_target_aligned _ _ hb
  · exact path_source_aligned _ _ hb.symm
  · exact path_target_aligned _ _ hb.symm
  · exact h (path_same_suffix _ _ _ hb)

theorem artifact_paths_flatten_nodup (names : List String) (h : names.Nodup) :
    (names.map artifact_paths).flatten.Nodup := by
  rw [List.nodup_flatten]
  refine ⟨?_, ?_⟩
  · intro l hl
    obtain ⟨a, _, rfl⟩ := List.mem_map.mp hl
    exact artifact_paths_nodup a
  · rw [List.pairwise_map]
    exact List.Pairwise.imp (fun {a b} hab => artifact_paths_disjoint a b hab) h

/-! ## The claims about the sweep of `main` -/

/-- C1: in a run of `main` with two arguments in which both loads succeed, the
driver is invoked with the nine configuration names "pcl_gicp", "pclomp_gicp",
"pcl_ndt", then KDTREE, DIRECT7, DIRECT1 for one thread and KDTREE, DIRECT7,
DIRECT1 for `M = omp_get_max_threads()` threads, in this order, for every `M`;
at each of the six parallel-NDT calls the handle passed carries the thread
count and the search method of the name, and resolution 1. -/
theorem main_configuration_sequence (env : Library P W T S) (argv : List String) (w : W)
    (hargc : argv.length = 3) (ht : (target_load env argv w).1.1 = 0)
    (hs : (source_load env argv w).1.1 = 0) :
    (driver_calls (main env argv w).2.log).map (fun c => (c.2.1, c.1)) =
      [("pcl_gicp", ⟨.pcl_gicp, none, none, none⟩),
        ("pclomp_gicp", ⟨.pclomp_gicp, none, none, none⟩),
        ("pcl_ndt", ⟨.pcl_ndt, some 1, none, none⟩),
        ("pclomp_ndt_KDTREE_1_threads", ⟨.pclomp_ndt, some 1, some 1, some .KDTREE⟩),
        ("pclomp_ndt_DIRECT7_1_threads", ⟨.pclomp_ndt, some 1, some 1, some .DIRECT7⟩),
        ("pclomp_ndt_DIRECT1_1_threads", ⟨.pclomp_ndt, some 1, some 1, some .DIRECT1⟩),
        ("pclomp_ndt_KDTREE_" ++ to_string env.omp_get_max_threads ++ "_threads",
          ⟨.pclomp_ndt, some 1, some env.omp_get_max_threads, some .KDTREE⟩),
        ("pclomp_ndt_DIRECT7_" ++ to_string env.omp_get_max_threads ++ "_threads",
          ⟨.pclomp_ndt, some 1, some env.omp_get_max_threads, some .DIRECT7⟩),
        ("pclomp_ndt_DIRECT1_" ++ to_string env.omp_get_max_threads ++ "_threads",
          ⟨.pclomp_ndt, some 1, some env.omp_get_max_threads, some .DIRECT1⟩)] := by
  rw [main_driver_calls env argv w hargc ht hs]
  rfl

theorem main_configuration_sequence_witness :
    sample_argv.length = 3 ∧ (target_load (sample_env 4 []) sample_argv 0).1.1 = 0 ∧
    (source_load (sample_env 4 []) sample_argv 0).1.1 = 0 ∧
    (driver_calls (main (sample_env 4 []) sample_argv 0).2.log).map (fun c => (c.2.1, c.1)) =
      [("pcl_gicp", ⟨.pcl_gicp, none, none, none⟩),
        ("pclomp_gicp", ⟨.pclomp_gicp, none, none, none⟩),
        ("pcl_ndt", ⟨.pcl_ndt, some 1, none, none⟩),
        ("pclomp_ndt_KDTREE_1_threads", ⟨.pclomp_ndt, some 1, some 1, some .KDTREE⟩),
        ("pclomp_ndt_DIRECT7_1_threads", ⟨.pclomp_ndt, some 1, some 1, some .DIRECT7⟩),
        ("pclomp_ndt_DIRECT1_1_threads", ⟨.pclomp_ndt, some 1, some 1, some .DIRECT1⟩),
        ("pclomp_ndt_KDTREE_4_threads", ⟨.pclomp_ndt, some 1, some 4, some .KDTREE⟩),
        ("pclomp_ndt_DIRECT7_4_threads", ⟨.pclomp_ndt, some 1, some 4, some .DIRECT7⟩),
        ("pclomp_ndt_DIRECT1_4_threads", ⟨.pclomp_ndt, some 1, some 4, some .DIRECT1⟩)] :=
  ⟨rfl, rfl, rfl, main_configuration_sequence (sample_env 4 []) sample_argv 0 rfl rfl rfl⟩

/-- C2, as stated, fails: with one available thread (`M = 1`) the sweep runs
the three one-thread configurations twice, so the names of a complete run are
not pairwise distinct. -/
theorem main_names_collide_single_thread :
    ¬ ((driver_calls (main (sample_env 1 []) sample_argv 0).2.log).map
      fun c => c.2.1).Nodup := by
  rw [main_driver_calls (sample_env 1 []) sample_argv 0 rfl rfl rfl]
  decide

/-- C2, amended: for every `M ≥ 2`, in a run of `main` with two arguments in
which both loads succeed, the names passed to the driver are pairwise distinct,
and so are the paths of all saves of the run. -/
theorem main_names_distinct (env : Library P W T S) (argv : List String) (w : W)
    (hargc : argv.length = 3) (ht : (target_load env argv w).1.1 = 0)
    (hs : (source_load env argv w).1.1 = 0) (hM : 2 ≤ env.omp_get_max_threads) :
    ((driver_calls (main env argv w).2.log).map fun c => c.2.1).Nodup ∧
    ((saved_artifacts (main env argv w).2.log).map fun x => x.1).Nodup := by
  have hn := configuration_names_nodup (T := T) (S := S) env.omp_get_max_threads hM
  constructor
  · rw [main_driver_calls env argv w hargc ht hs, List.map_map]
    exact hn
  · rw [main_saved_paths env argv w hargc ht hs]
    have := artifact_paths_flatten_nodup _ hn
    rwa [List.map_map] at this

theorem main_names_distinct_witness :
    sample_argv.length = 3 ∧ (target_load (sample_env 4 []) sample_argv 0).1.1 = 0 ∧
    (source_load (sample_env 4 []) sample_argv 0).1.1 = 0 ∧
    (2 : Int) ≤ (sample_env 4 []).omp_get_max_threads ∧
    ((driver_calls (main (sample_env 4 []) sample_argv 0).2.log).map fun c => c.2.1).Nodup ∧
    ((saved_artifacts (main (sample_env 4 []) sample_argv 0).2.log).map fun x => x.1).Nodup :=
  ⟨rfl, rfl, rfl, by decide,
    main_names_distinct (sample_env 4 []) sample_argv 0 rfl rfl rfl (by decide)⟩

/-- C8: in a run of `main` with two arguments in which both loads succeed, with
`T` and `S` the clouds loaded and `d` the voxel filter at the leaf size of
line 114, each of the nine driver invocations receives the target `d T` and
the source `d S`. -/
theorem main_clouds_fixed (env : Library P W T S) (argv : List String) (w : W)
    (hargc : argv.length = 3) (ht : (target_load env argv w).1.1 = 0)
    (hs : (source_load env argv w).1.1 = 0) :
    (driver_calls (main env argv w).2.log).map (fun c => (c.2.2.1, c.2.2.2)) =
      List.replicate 9 (env.filter leaf_size (target_load env argv w).1.2,
        env.filter leaf_size (source_load env argv w).1.2) := by
  rw [main_driver_calls env argv w hargc ht hs]
  rfl

theorem main_clouds_fixed_witness :
    sample_argv.length = 3 ∧ (target_load (sample_env 4 []) sample_argv 0).1.1 = 0 ∧
    (source_load (sample_env 4 []) sample_argv 0).1.1 = 0 ∧
    (driver_calls (main (sample_env 4 []) sample_argv 0).2.log).map
      (fun c => (c.2.2.1, c.2.2.2)) = List.replicate 9 ([6, 1], [6, 2]) :=
  ⟨rfl, rfl, rfl, main_clouds_fixed (sample_env 4 []) sample_argv 0 rfl rfl rfl⟩

/-- C9, as stated, fails: a complete run invokes the driver 9 times, which is
not `3 + 2 × num_thread_options × num_search_strategies = 3 + 2 × 2 × 3`. -/
theorem main_run_count_not_fifteen :
    (driver_calls (main (sample_env 4 []) sample_argv 0).2.log).length ≠ 3 + 2 * 2 * 3 := by
  rw [main_driver_calls (sample_env 4 []) sample_argv 0 rfl rfl rfl]
  decide

/-- C9, amended: in a run of `main` with two arguments in which both loads
succeed, the number of driver invocations is
`3 + num_thread_options × num_search_strategies = 3 + 2 × 3 = 9`. -/
theorem main_run_count (env : Library P W T S) (argv : List String) (w : W)
    (hargc : argv.length = 3) (ht : (target_load env argv w).1.1 = 0)
    (hs : (source_load env argv w).1.1 = 0) :
    (driver_calls (main env argv w).2.log).length = 3 + 2 * 3 := by
  rw [main_driver_calls env argv w hargc ht hs]
  rfl

theorem main_run_count_witness :
    sample_argv.length = 3 ∧ (target_load (sample_env 4 []) sample_argv 0).1.1 = 0 ∧
    (source_load (sample_env 4 []) sample_argv 0).1.1 = 0 ∧
    (driver_calls (main (sample_env 4 []) sample_argv 0).2.log).length = 3 + 2 * 3 :=
  ⟨rfl, rfl, rfl, main_run_count (sample_env 4 []) sample_argv 0 rfl rfl rfl⟩

/-! ## The claims about the driver -/

/-- C3: one call of the driver `align` binds the target and then the source
once each, runs one alignment pass between two clock readings (the single
run), then ten passes before the third clock reading, reads the fitness score
once after the eleventh pass, and only then saves: what follows the fitness
line in the log consists of saves and their reports.  No binding occurs
between passes, and the cloud returned is the output of the eleventh pass. -/
theorem align_protocol (env : Library P W T S) (registration : Registration)
    (registration_name : String) (target_cloud source_cloud : Nat) (st : Sys P W T S) :
    ∃ (t1 t2 t3 : T) (o1 : PointCloud P) (outs : List (PointCloud P)) (f : S)
      (saves : List (Event P T S)), outs.length = 10 ∧
      (align env registration registration_name target_cloud source_cloud st).2.log =
        st.log ++
          ([.call_align registration registration_name (deref st target_cloud)
              (deref st source_cloud),
            .setInputTarget registration (deref st target_cloud),
            .setInputSource registration (deref st source_cloud),
            .now t1, .align registration o1, .now t2,
            .cout [.str "single: ", .msec t1 t2, .str " [msec]", .endl]] ++
          outs.map (Event.align registration) ++
          [.now t3, .cout [.str "10 times: ", .msec t2 t3, .str " [msec]", .endl],
            .getFitnessScore registration f,
            .cout [.str "fitness: ", .score f, .endl, .endl]] ++ saves) ∧
      save_reports saves = saves ∧
      (o1 :: outs).getLast? = some
        (deref (align env registration registration_name target_cloud source_cloud st).2
          (align env registration registration_name target_cloud source_cloud st).1) := by
  obtain ⟨t1, t2, t3, o1, outs, f, r1, r2, r3, w2, cs, ct, heq, hlen, _, _, _⟩ :=
    align_eq env registration registration_name target_cloud source_cloud st
  refine ⟨t1, t2, t3, o1, outs, f,
    save_events ("/home/pcd/" ++ registration_name ++ "_source.pcd") cs r1 ++
    save_events ("/home/pcd/" ++ registration_name ++ "_target.pcd") ct r2 ++
    save_events ("/home/pcd/" ++ registration_name ++ "_aligned.pcd") (outs.getLastD o1) r3,
    hlen, ?_, ?_, ?_⟩
  · rw [heq]
    simp only [align_events, List.append_assoc]
  · simp only [save_reports_append, save_reports_save_events]
  · rw [heq]
    simp only [deref, getD_append_length, List.getLast?_cons, List.getLastD_eq_getLast?]

/-- C7: one call of the driver with the name `n` on valid cloud pointers hands
exactly three artifacts to the PCD writer, in this order: the source cloud it
was passed under "/home/pcd/" ++ n ++ "_source.pcd", the target cloud it was
passed under "/home/pcd/" ++ n ++ "_target.pcd", and the cloud it returns under
"/home/pcd/" ++ n ++ "_aligned.pcd". -/
theorem align_artifacts (env : Library P W T S) (registration : Registration)
    (n : String) (target_cloud source_cloud : Nat) (st : Sys P W T S)
    (ht : target_cloud < st.heap.length) (hs : source_cloud < st.heap.length) :
    saved_artifacts (align env registration n target_cloud source_cloud st).2.log =
      saved_artifacts st.log ++
        [("/home/pcd/" ++ n ++ "_source.pcd", deref st source_cloud),
          ("/home/pcd/" ++ n ++ "_target.pcd", deref st target_cloud),
          ("/home/pcd/" ++ n ++ "_aligned.pcd",
            deref (align env registration n target_cloud source_cloud st).2
              (align env registration n target_cloud source_cloud st).1)] := by
  obtain ⟨t1, t2, t3, o1, outs, f, r1, r2, r3, w2, cs, ct, heq, _, hcs, hct, _⟩ :=
    align_eq env registration n target_cloud source_cloud st
  rw [heq, saved_artifacts_append, saved_artifacts_align_events, hcs hs, hct ht]
  simp only [deref, getD_append_length]

theorem align_artifacts_witness :
    0 < sample_state.heap.length ∧ 1 < sample_state.heap.length ∧
    saved_artifacts (align (sample_env 4 ["/home/pcd/demo_target.pcd"])
        (Registration.new .pcl_gicp) "demo" 0 1 sample_state).2.log =
      saved_artifacts sample_state.log ++
        [("/home/pcd/" ++ "demo" ++ "_source.pcd", deref sample_state 1),
          ("/home/pcd/" ++ "demo" ++ "_target.pcd", deref sample_state 0),
          ("/home/pcd/" ++ "demo" ++ "_aligned.pcd",
            deref (align (sample_env 4 ["/home/pcd/demo_target.pcd"])
              (Registration.new .pcl_gicp) "demo" 0 1 sample_state).2
              (align (sample_env 4 ["/home/pcd/demo_target.pcd"])
                (Registration.new .pcl_gicp) "demo" 0 1 sample_state).1)] :=
  ⟨by decide, by decide,
    align_artifacts (sample_env 4 ["/home/pcd/demo_target.pcd"]) (Registration.new .pcl_gicp)
      "demo" 0 1 sample_state (by decide) (by decide)⟩

/-- A driver call on `sample_state` whose target save fails: the three saves
are attempted in order and the failed one is reported. -/
theorem align_failed_save_example :
    save_reports (align (sample_env 4 ["/home/pcd/demo_target.pcd"])
        (Registration.new .pcl_gicp) "demo" 0 1 sample_state).2.log =
      [.savePCDFileASCII "/home/pcd/demo_source.pcd" [4, 5] 0,
        .savePCDFileASCII "/home/pcd/demo_target.pcd" [1, 2, 3] (-1),
        .cerr [.str "failed to save ", .str "/home/pcd/demo_target.pcd", .endl],
        .savePCDFileASCII "/home/pcd/demo_aligned.pcd" [14, 13] 0] := by
  rfl

theorem align_with_save (env : Library P W T S)
    (sv : String → PointCloud P → W → Int × W) (registration : Registration)
    (registration_name : String) (t s : Nat) (st : Sys P W T S) :
    deref (align (with_save env sv) registration registration_name t s st).2
        (align (with_save env sv) registration registration_name t s st).1 =
      aligned_output env registration (deref st t) (deref st s) st.world := by
  obtain ⟨t1, t2, t3, o1, outs, f, r1, r2, r3, w2, cs, ct, heq, _, _, _, hout⟩ :=
    align_eq (with_save env sv) registration registration_name t s st
  rw [heq]
  simp only [deref, getD_append_length]
  exact hout

theorem main_driver_calls_with_save (env : Library P W T S)
    (sv : String → PointCloud P → W → Int × W) (argv : List String) (w : W) :
    driver_calls (main (with_save env sv) argv w).2.log =
      driver_calls (main env argv w).2.log := by
  by_cases hargc : argv.length = 3
  · by_cases ht : (target_load env argv w).1.1 = 0
    · by_cases hs : (source_load env argv w).1.1 = 0
      · rw [main_driver_calls env argv w hargc ht hs,
          main_driver_calls (with_save env sv) argv w hargc ht hs]
        rfl
      · rw [(main_source_fail env argv w hargc ht hs).2,
          (main_source_fail (with_save env sv) argv w hargc ht hs).2]
        rfl
    · rw [(main_target_fail env argv w hargc ht).2,
        (main_target_fail (with_save env sv) argv w hargc ht).2]
      rfl
  · rw [main_usage env argv w hargc, main_usage (with_save env sv) argv w hargc]

/-- C5: whatever the PCD writer `sv` returns, one call of the driver attempts
the three saves in the order source, target, aligned, each save with a nonzero
status is followed by the line "failed to save " and its path on `std::cerr`
(`save_events`), and the cloud returned is the one returned under any other
writer `sv2`, in particular one that always succeeds; and the driver
invocations of `main` are the same under both writers. -/
theorem save_failures_nonfatal (env : Library P W T S)
    (sv sv2 : String → PointCloud P → W → Int × W) (registration : Registration)
    (registration_name : String) (target_cloud source_cloud : Nat) (st : Sys P W T S)
    (argv : List String) (w : W) :
    (∃ (cs ct a : PointCloud P) (r1 r2 r3 : Int),
      save_reports (align (with_save env sv) registration registration_name
          target_cloud source_cloud st).2.log =
        save_reports st.log ++
          (save_events ("/home/pcd/" ++ registration_name ++ "_source.pcd") cs r1 ++
          save_events ("/home/pcd/" ++ registration_name ++ "_target.pcd") ct r2 ++
          save_events ("/home/pcd/" ++ registration_name ++ "_aligned.pcd") a r3)) ∧
    deref (align (with_save env sv) registration registration_name
          target_cloud source_cloud st).2
        (align (with_save env sv) registration registration_name
          target_cloud source_cloud st).1 =
      deref (align (with_save env sv2) registration registration_name
          target_cloud source_cloud st).2
        (align (with_save env sv2) registration registration_name
          target_cloud source_cloud st).1 ∧
    driver_calls (main (with_save env sv) argv w).2.log =
      driver_calls (main (with_save env sv2) argv w).2.log := by
  refine ⟨?_, ?_, ?_⟩
  · obtain ⟨t1, t2, t3, o1, outs, f, r1, r2, r3, w2, cs, ct, heq, _, _, _, _⟩ :=
      align_eq (with_save env sv) registration registration_name target_cloud source_cloud st
    refine ⟨cs, ct, outs.getLastD o1, r1, r2, r3, ?_⟩
    rw [heq, save_reports_append, save_reports_align_events]
  · rw [align_with_save, align_with_save]
  · rw [main_driver_calls_with_save, main_driver_calls_with_save]

/-! ## The claims about the arguments and the loads -/

/-- C4: when the argument vector does not have exactly two user arguments
(`argc != 3`), `main` prints the usage text, returns 0 and does nothing else:
the log holds that one line and the world is untouched.  With exactly two user
arguments no output statement prints the usage text and the first library call
is the load of `argv[1]`. -/
theorem main_argument_count (env : Library P W T S) (argv : List String) (w : W) :
    (argv.length ≠ 3 → main env argv w =
      (0, ⟨w, [], [.cout [.str "usage: align target.pcd source.pcd", .endl]]⟩)) ∧
    (argv.length = 3 → usage_lines (main env argv w).2.log = [] ∧
      (main env argv w).2.log.head? =
        some (.loadPCDFile (argv.getD 1 "") (target_load env argv w).1.1)) :=
  ⟨main_usage env argv w, fun h => ⟨main_usage_lines env argv w h, main_first_event env argv w h⟩⟩

theorem main_argument_count_witness :
    (["align", "t.pcd"].length ≠ 3 ∧ main (sample_env 4 []) ["align", "t.pcd"] 0 =
      (0, ⟨0, [], [.cout [.str "usage: align target.pcd source.pcd", .endl]]⟩)) ∧
    (sample_argv.length = 3 ∧ usage_lines (main (sample_env 4 []) sample_argv 0).2.log = [] ∧
      (main (sample_env 4 []) sample_argv 0).2.log.head? =
        some (.loadPCDFile (sample_argv.getD 1 "")
          (target_load (sample_env 4 []) sample_argv 0).1.1)) :=
  ⟨⟨by decide, (main_argument_count (sample_env 4 []) ["align", "t.pcd"] 0).1 (by decide)⟩,
    ⟨rfl, (main_argument_count (sample_env 4 []) sample_argv 0).2 rfl⟩⟩

/-- C6: with exactly two user arguments, if the load of the target fails, the
log of `main` is that load and the line "failed to load " with the target
path; if the load of the target succeeds and the load of the source fails, the
log is the two loads and the line "failed to load " with the source path.  In
both cases `main` returns there: no filter, no driver call, no save and no
viewer event follows. -/
theorem main_load_failure (env : Library P W T S) (argv : List String) (w : W)
    (hargc : argv.length = 3) :
    ((target_load env argv w).1.1 ≠ 0 →
      (main env argv w).1 = 0 ∧
      (main env argv w).2.log =
        [.loadPCDFile (argv.getD 1 "") (target_load env argv w).1.1,
          .cerr [.str "failed to load ", .str (argv.getD 1 ""), .endl]]) ∧
    ((target_load env argv w).1.1 = 0 → (source_load env argv w).1.1 ≠ 0 →
      (main env argv w).1 = 0 ∧
      (main env argv w).2.log =
        [.loadPCDFile (argv.getD 1 "") 0,
          .loadPCDFile (argv.getD 2 "") (source_load env argv w).1.1,
          .cerr [.str "failed to load ", .str (argv.getD 2 ""), .endl]]) :=
  ⟨main_target_fail env argv w hargc, main_source_fail env argv w hargc⟩

theorem main_load_failure_witness :
    (sample_argv.length = 3 ∧ (target_load (sample_env 4 ["t.pcd"]) sample_argv 0).1.1 ≠ 0 ∧
      (main (sample_env 4 ["t.pcd"]) sample_argv 0).1 = 0 ∧
      (main (sample_env 4 ["t.pcd"]) sample_argv 0).2.log =
        [.loadPCDFile "t.pcd" (-1), .cerr [.str "failed to load ", .str "t.pcd", .endl]]) ∧
    ((target_load (sample_env 4 ["s.pcd"]) sample_argv 0).1.1 = 0 ∧
      (source_load (sample_env 4 ["s.pcd"]) sample_argv 0).1.1 ≠ 0 ∧
      (main (sample_env 4 ["s.pcd"]) sample_argv 0).1 = 0 ∧
      (main (sample_env 4 ["s.pcd"]) sample_argv 0).2.log =
        [.loadPCDFile "t.pcd" 0, .loadPCDFile "s.pcd" (-1),
          .cerr [.str "failed to load ", .str "s.pcd", .endl]]) :=
  ⟨⟨rfl, by decide,
      (main_load_failure (sample_env 4 ["t.pcd"]) sample_argv 0 rfl).1 (by decide)⟩,
    ⟨by decide, by decide,
      (main_load_failure (sample_env 4 ["s.pcd"]) sample_argv 0 rfl).2 (by decide)
        (by decide)⟩⟩

/-! ## The claim about `PrintMemoryUsage` -/

theorem find_at_isSome (pat : List Char) (s : List Char) :
    ∀ i, (find_at pat s i).isSome = true ↔ pat <:+: s := by
  induction s with
  | nil =>
    intro i
    by_cases hp : pat = [] <;> simp [find_at, hp]
  | cons c cs ih =>
    intro i
    by_cases hp : pat.isPrefixOf (c :: cs) = true
    · simp only [find_at, hp, if_true, Option.isSome_some, true_iff]
      exact (List.isPrefixOf_iff_prefix.mp hp).isInfix
    · have hp2 : pat.isPrefixOf (c :: cs) = false := (Bool.not_eq_true _).mp hp
      simp only [find_at, hp2, Bool.false_eq_true, if_false, ih, List.infix_cons_iff]
      constructor
      · exact Or.inr
      · rintro (h | h)
        · exact absurd (List.isPrefixOf_iff_prefix.mpr h) hp
        · exact h

theorem find_isSome (line pat : String) :
    (find line pat).isSome = true ↔ pat.data <:+: line.data :=
  find_at_isSome _ _ 0

theorem find_at_colon (name rest : List Char) (h : ':' ∉ name) :
    ∀ i, find_at [':'] (name ++ ':' :: rest) i = some (i + name.length) := by
  induction name with
  | nil => intro i; simp [find_at]
  | cons c cs ih =>
    intro i
    have hc : c ≠ ':' := fun e => h (by simp [e])
    have hcs : ':' ∉ cs := fun e => h (by simp [e])
    have : (':' == c) = false := by simpa using fun e => hc e.symm
    simp only [List.cons_append, find_at, List.isPrefixOf, List.length_cons, this,
      Bool.false_and, Bool.false_eq_true, if_false]
    refine (ih hcs (i + 1)).trans ?_
    congr 1
    omega

theorem dropWhile_isspace (ws rest : List Char) (d : Char) (hws : ∀ c ∈ ws, isspace c = true)
    (hd : isspace d = false) : (ws ++ d :: rest).dropWhile isspace = d :: rest := by
  induction ws with
  | nil => simp [List.dropWhile, hd]
  | cons c cs ih =>
    have h1 : isspace c = true := hws c (by simp)
    simp only [List.cons_append, List.dropWhile, h1]
    exact ih fun c hc => hws c (by simp [hc])

theorem takeWhile_isDigit (digits rest : List Char) (hds : ∀ c ∈ digits, c.isDigit = true) :
    (digits ++ ' ' :: rest).takeWhile Char.isDigit = digits := by
  induction digits with
  | nil => simp [List.takeWhile]
  | cons c cs ih =>
    have h1 : c.isDigit = true := hds c (by simp)
    have h2 := ih fun c hc => hds c (by simp [hc])
    simp only [List.cons_append, List.takeWhile, h1]
    exact congrArg (c :: ·) h2

theorem isDigit_not_space (c : Char) (h : c.isDigit = true) :
    isspace c = false ∧ c ≠ '-' ∧ c ≠ '+' := by
  simp only [Char.isDigit, Bool.and_eq_true, decide_eq_true_eq] at h
  have h1 : 48 ≤ c.toNat := by
    have := h.1; simpa [Char.toNat, UInt32.le_def] using this
  refine ⟨?_, ?_, ?_⟩
  · simp only [isspace, Bool.or_eq_false_iff, Bool.and_eq_false_iff, decide_eq_false_iff_not]
    refine ⟨?_, Or.inr (by omega)⟩
    rintro rfl
    exact absurd h1 (by decide)
  · rintro rfl; exact absurd h1 (by decide)
  · rintro rfl; exact absurd h1 (by decide)

theorem stoul_status (ws digits : List Char) (hws : ∀ c ∈ ws, isspace c = true)
    (hne : digits ≠ []) (hds : ∀ c ∈ digits, c.isDigit = true) :
    stoul (String.mk ws ++ String.mk digits ++ " kB") =
      if ULONG_MAX < decimal_value digits then .error .out_of_range
      else .ok (decimal_value digits) := by
  obtain ⟨d, ds, rfl⟩ : ∃ d ds, digits = d :: ds := by
    cases digits with
    | nil => exact absurd rfl hne
    | cons d ds => exact ⟨d, ds, rfl⟩
  obtain ⟨hd1, hd2, hd3⟩ := isDigit_not_space d (hds d (by simp))
  have hdata : (String.mk ws ++ String.mk (d :: ds) ++ " kB").data =
      ws ++ d :: (ds ++ ' ' :: ['k', 'B']) := by
    simp [String.data_append]
  have hdrop := dropWhile_isspace ws (ds ++ ' ' :: ['k', 'B']) d hws hd1
  have htake : ((d :: ds) ++ ' ' :: ['k', 'B']).takeWhile Char.isDigit = d :: ds :=
    takeWhile_isDigit (d :: ds) ['k', 'B'] hds
  have hsign : (match d :: (ds ++ ' ' :: ['k', 'B']) with
      | '-' :: r => (true, r)
      | '+' :: r => (false, r)
      | _ => (false, d :: (ds ++ ' ' :: ['k', 'B']))) =
      (false, d :: (ds ++ ' ' :: ['k', 'B'])) := by
    split
    · next h => exact absurd (List.cons.inj h).1 hd2
    · next h => exact absurd (List.cons.inj h).1 hd3
    · rfl
  unfold stoul
  simp only [hdata, hdrop, hsign]
  rw [show d :: (ds ++ ' ' :: ['k', 'B']) = (d :: ds) ++ ' ' :: ['k', 'B'] from rfl, htake]
  simp

theorem counter_test (line : String) :
    ((find line "VmPeak").isSome || (find line "VmSize").isSome || (find line "VmStk").isSome ||
        (find line "VmData").isSome || (find line "VmRSS").isSome || (find line "VmLib").isSome ||
        (find line "VmPTE").isSome) = names_counter line := by
  rw [Bool.eq_iff_iff]
  simp only [Bool.or_eq_true, find_isSome, names_counter, counter_names, List.any_cons,
    List.any_nil, Bool.or_false, decide_eq_true_eq, or_assoc]

/-- What the statements of lines 40-44 compute on a line of the form
`<Name>:<whitespace><decimal digits> kB`: the colon found is the one after the
name, the label is the name, and `std::stoul` yields the integer of the line
or raises `out_of_range`. -/
theorem status_line_parse (line name : String) (kB : Nat) (h : StatusLine line name kB) :
    ∃ pos, find line ":" = some pos ∧ substr_to line pos = name ∧
      stoul (substr_from line (pos + 1)) =
        if ULONG_MAX < kB then .error .out_of_range else .ok kB := by
  obtain ⟨ws, digits, hname, hws, hne, hds, hval, rfl⟩ := h
  have hdata : (name ++ ":" ++ String.mk ws ++ String.mk digits ++ " kB").data =
      name.data ++ ':' :: (String.mk ws ++ String.mk digits ++ " kB").data := by
    simp [String.data_append]
  refine ⟨name.data.length, ?_, ?_, ?_⟩
  · have := find_at_colon name.data (String.mk ws ++ String.mk digits ++ " kB").data hname 0
    simp only [find, hdata]
    simpa using this
  · simp [substr_to, hdata]
  · have : substr_from (name ++ ":" ++ String.mk ws ++ String.mk digits ++ " kB")
        (name.data.length + 1) = String.mk ws ++ String.mk digits ++ " kB" := by
      apply String.ext
      simp only [substr_from, hdata]
      rw [show name.data ++ ':' :: (String.mk ws ++ String.mk digits ++ " kB").data =
        (name.data ++ [':']) ++ (String.mk ws ++ String.mk digits ++ " kB").data by simp]
      rw [List.drop_left' (by simp)]
    rw [this, ← hval]
    exact stoul_status ws digits hws hne hds

/-- One round of the loop on a line that names a counter and has the form
`<Name>:<whitespace><decimal digits> kB` with an integer below `2 ^ 64`: one
row, whose value is the integer converted to `double`, divided by 1024. -/
theorem print_rows_cons (line name : String) (kB : Nat) (rest : List String)
    (hc : names_counter line = true) (h : StatusLine line name kB) (hmax : kB < 2 ^ 64) :
    print_rows (line :: rest) =
      ⟨[Item.field 15 name, .fixed 15 2 ((to_double kB : ℚ) / 1024), .endl] ::
        (print_rows rest).out, (print_rows rest).raised⟩ := by
  obtain ⟨pos, hfind, hto, hstoul⟩ := status_line_parse line name kB h
  have hmax2 : ¬ ULONG_MAX < kB := by unfold ULONG_MAX; omega
  rw [if_neg hmax2] at hstoul
  simp only [print_rows, counter_test, hc, if_true, hfind, hto, hstoul]

theorem print_rows_skip (line : String) (rest : List String)
    (hc : ¬ names_counter line = true) : print_rows (line :: rest) = print_rows rest := by
  simp only [print_rows, counter_test, hc, Bool.false_eq_true, if_false]

theorem print_rows_table (lines : List String)
    (h : ∀ line ∈ lines, names_counter line = true →
      ∃ name kB, StatusLine line name kB ∧ kB < 2 ^ 64) :
    ∃ rows, print_rows lines = ⟨rows, none⟩ ∧
      List.Forall₂ (fun line row => ∃ name kB, StatusLine line name kB ∧
        row = [Item.field 15 name, .fixed 15 2 ((to_double kB : ℚ) / 1024), .endl])
        (lines.filter names_counter) rows := by
  induction lines with
  | nil => exact ⟨[], rfl, by simp⟩
  | cons line rest ih =>
    obtain ⟨rows, hrows, hall⟩ := ih fun l hl => h l (List.mem_cons_of_mem _ hl)
    by_cases hc : names_counter line = true
    · obtain ⟨name, kB, hform, hmax⟩ := h line (List.mem_cons_self _ _) hc
      refine ⟨[Item.field 15 name, .fixed 15 2 ((to_double kB : ℚ) / 1024), .endl] :: rows,
        ?_, ?_⟩
      · rw [print_rows_cons line name kB rest hc hform hmax, hrows]
      · rw [List.filter_cons_of_pos hc]
        exact List.Forall₂.cons ⟨name, kB, hform, rfl⟩ hall
    · refine ⟨rows, ?_, ?_⟩
      · rw [print_rows_skip line rest hc, hrows]
      · rw [List.filter_cons_of_neg hc]
        exact hall

theorem to_double_of_lt (n : Nat) (h : n < 2 ^ 53) : to_double n = n := by
  have he : excess_bits 64 n = 0 := by
    show (if n < 2 ^ 53 then 0 else excess_bits 63 (n / 2) + 1) = 0
    rw [if_pos h]
  simp [to_double, he, Nat.mod_one]

/-- Every integer up to `2 ^ 53` converts to `double` exactly. -/
theorem to_double_of_le (n : Nat) (h : n ≤ 2 ^ 53) : to_double n = n := by
  rcases Nat.lt_or_ge n (2 ^ 53) with h1 | h1
  · exact to_double_of_lt n h1
  · have : n = 2 ^ 53 := Nat.le_antisymm h h1
    subst this
    decide

theorem sample_status_form : ∀ line ∈ sample_status, names_counter line = true →
    ∃ name kB, StatusLine line name kB ∧ kB ≤ 2 ^ 53 := by
  intro line hl hn
  simp only [sample_status, List.mem_cons, List.mem_singleton, List.not_mem_nil, or_false]
    at hl
  rcases hl with rfl | rfl | rfl | rfl | rfl
  · exact absurd hn (by decide)
  · exact ⟨"VmPeak", 123456, ⟨['\t', ' ', ' '], ['1', '2', '3', '4', '5', '6'], by decide,
      by decide, by decide, by decide, by decide, by decide⟩, by decide⟩
  · exact absurd hn (by decide)
  · exact ⟨"VmRSS", 2048, ⟨['\t', ' '], ['2', '0', '4', '8'], by decide, by decide,
      by decide, by decide, by decide, by decide⟩, by decide⟩
  · exact absurd hn (by decide)

theorem rounding_status_peak :
    StatusLine "VmPeak:\t9007199254740993 kB" "VmPeak" 9007199254740993 :=
  ⟨['\t'], "9007199254740993".data, by decide, by decide, by decide, by decide, by decide,
    by decide⟩

theorem rounding_status_rss :
    StatusLine "VmRSS:\t9007199254741007 kB" "VmRSS" 9007199254741007 :=
  ⟨['\t'], "9007199254741007".data, by decide, by decide, by decide, by decide, by decide,
    by decide⟩

theorem rounding_status_rows :
    PrintMemoryUsage (some rounding_status) =
      ⟨table_header ++
        [[.field 15 "VmPeak", .fixed 15 2 (9007199254740992 / 1024), .endl],
          [.field 15 "VmRSS", .fixed 15 2 (9007199254741008 / 1024), .endl]], none⟩ := by
  have h1 : to_double 9007199254740993 = 9007199254740992 := by decide
  have h2 : to_double 9007199254741007 = 9007199254741008 := by decide
  have hrows : print_rows rounding_status =
      ⟨[[.field 15 "VmPeak", .fixed 15 2 (9007199254740992 / 1024), .endl],
        [.field 15 "VmRSS", .fixed 15 2 (9007199254741008 / 1024), .endl]], none⟩ := by
    unfold rounding_status
    rw [print_rows_cons _ _ _ _ (by decide) rounding_status_peak (by decide),
      print_rows_cons _ _ _ _ (by decide) rounding_status_rss (by decide), h1, h2]
    simp [print_rows]
  simp [PrintMemoryUsage, hrows, table_header]

/-- C10, as stated, fails: both lines of `rounding_status` name a counter and
have the form `<Name>:<whitespace><decimal digits> kB`, with the integers
`2 ^ 53 + 1` and `2 ^ 53 + 15`, and `PrintMemoryUsage` prints one row for each,
but the values of the rows are `2 ^ 53 / 1024` and `(2 ^ 53 + 16) / 1024`: the
conversion to `double` on line 45 has rounded the integers.  So the rows are
not the rows of the claim; and the second value lies above 8796093022208.015
where the integer of the line divided by 1024 lies below it, so that the two
decimals printed are `.02`, not `.01`. -/
theorem PrintMemoryUsage_rounding :
    (∀ line ∈ rounding_status, names_counter line = true →
      ∃ name kB, StatusLine line name kB) ∧
    PrintMemoryUsage (some rounding_status) =
      ⟨table_header ++
        [[.field 15 "VmPeak", .fixed 15 2 (9007199254740992 / 1024), .endl],
          [.field 15 "VmRSS", .fixed 15 2 (9007199254741008 / 1024), .endl]], none⟩ ∧
    (¬ ∃ rows, PrintMemoryUsage (some rounding_status) = ⟨table_header ++ rows, none⟩ ∧
      List.Forall₂ (fun line row => ∃ name kB, StatusLine line name kB ∧
        row = [Item.field 15 name, .fixed 15 2 ((kB : ℚ) / 1024), .endl])
        (rounding_status.filter names_counter) rows) ∧
    ((9007199254741007 : ℚ) / 1024 * 100 < 879609302220801 + 1 / 2 ∧
      (879609302220801 : ℚ) + 1 / 2 < 9007199254741008 / 1024 * 100) := by
  refine ⟨?_, rounding_status_rows, ?_, by norm_num⟩
  · intro line hl _
    simp only [rounding_status, List.mem_cons, List.mem_singleton, List.not_mem_nil, or_false]
      at hl
    rcases hl with rfl | rfl
    · exact ⟨_, _, rounding_status_peak⟩
    · exact ⟨_, _, rounding_status_rss⟩
  · rintro ⟨rows, hrows, hall⟩
    rw [rounding_status_rows] at hrows
    have hr : rows = [[Item.field 15 "VmPeak", .fixed 15 2 (9007199254740992 / 1024), .endl],
        [.field 15 "VmRSS", .fixed 15 2 (9007199254741008 / 1024), .endl]] :=
      (List.append_cancel_left (Report.mk.inj hrows).1).symm
    have hf : rounding_status.filter names_counter = rounding_status := by decide
    rw [hr, hf] at hall
    unfold rounding_status at hall
    obtain ⟨name, kB, hform, hrow⟩ := (List.forall₂_cons.mp hall).1
    obtain ⟨pos, hfind, _, hstoul⟩ := status_line_parse _ name kB hform
    have hpos : find "VmPeak:\t9007199254740993 kB" ":" = some 6 := by decide
    have hval : stoul (substr_from "VmPeak:\t9007199254740993 kB" 7) =
        .ok 9007199254740993 := by rfl
    have hkB : kB = 9007199254740993 := by
      have hp : pos = 6 := by
        rw [hpos] at hfind
        exact (Option.some.inj hfind).symm
      subst hp
      rw [hval] at hstoul
      by_cases hbig : ULONG_MAX < kB
      · rw [if_pos hbig] at hstoul
        exact absurd hstoul (by simp)
      · rw [if_neg hbig] at hstoul
        exact (Except.ok.inj hstoul).symm
    subst hkB
    have hx := (List.cons.inj (List.cons.inj hrow).2).1
    have hq := (Item.fixed.inj hx).2.2
    norm_num at hq

/-- C10, amended: when the status file can be opened and every line naming a
counter has the form `<Name>:<whitespace><decimal digits> kB` with an integer
of at most `2 ^ 53`, `PrintMemoryUsage` raises nothing and prints the three
header lines and then one row per line that names a counter, in file order,
and no other row; the label of a row is the text before the first colon of its
line and its value is the integer of the line divided by 1024.  A line names a
counter when one of the seven names occurs in it, and `<Name>` is the text
before the first colon (`StatusLine`). -/
theorem PrintMemoryUsage_table (lines : List String)
    (h : ∀ line ∈ lines, names_counter line = true →
      ∃ name kB, StatusLine line name kB ∧ kB ≤ 2 ^ 53) :
    ∃ rows, PrintMemoryUsage (some lines) = ⟨table_header ++ rows, none⟩ ∧
      List.Forall₂ (fun line row => ∃ name kB, StatusLine line name kB ∧
        row = [Item.field 15 name, .fixed 15 2 ((kB : ℚ) / 1024), .endl])
        (lines.filter names_counter) rows := by
  induction lines with
  | nil => exact ⟨[], rfl, by simp⟩
  | cons line rest ih =>
    obtain ⟨rows, hrows, hall⟩ := ih fun l hl => h l (List.mem_cons_of_mem _ hl)
    have hrest : print_rows rest = ⟨rows, none⟩ := by
      have h3 := (Report.mk.inj hrows).1
      have h4 := (Report.mk.inj hrows).2
      have h5 : (print_rows rest).out = rows :=
        @List.append_cancel_left _ table_header _ _ h3
      cases hp : print_rows rest with
      | mk o r =>
        rw [hp] at h5 h4
        simp only at h5 h4
        rw [h5, h4]
    by_cases hc : names_counter line = true
    · obtain ⟨name, kB, hform, hmax⟩ := h line (List.mem_cons_self _ _) hc
      have hlt : kB < 2 ^ 64 := Nat.lt_of_le_of_lt hmax (by decide)
      refine ⟨[Item.field 15 name, .fixed 15 2 ((kB : ℚ) / 1024), .endl] :: rows, ?_, ?_⟩
      · simp only [PrintMemoryUsage, print_rows_cons line name kB rest hc hform hlt, hrest,
          to_double_of_le kB hmax, table_header, List.cons_append, List.nil_append]
      · rw [List.filter_cons_of_pos hc]
        exact List.Forall₂.cons ⟨name, kB, hform, rfl⟩ hall
    · refine ⟨rows, ?_, ?_⟩
      · simp only [PrintMemoryUsage, print_rows_skip line rest hc, hrest, table_header,
          List.cons_append, List.nil_append]
      · rw [List.filter_cons_of_neg hc]
        exact hall

theorem PrintMemoryUsage_table_witness :
    (∀ line ∈ sample_status, names_counter line = true →
      ∃ name kB, StatusLine line name kB ∧ kB ≤ 2 ^ 53) ∧
    ∃ rows, PrintMemoryUsage (some sample_status) = ⟨table_header ++ rows, none⟩ ∧
      List.Forall₂ (fun line row => ∃ name kB, StatusLine line name kB ∧
        row = [Item.field 15 name, .fixed 15 2 ((kB : ℚ) / 1024), .endl])
        (sample_status.filter names_counter) rows :=
  ⟨sample_status_form, PrintMemoryUsage_table sample_status sample_status_form⟩

end Align
